import Mathlib

/-!
# ValueObjectVTable: a shallow embedding

Embedding of `lldb/source/Core/ValueObjectVTable.cpp` (the vtable node
`ValueObjectVTable` and its entry node `ValueObjectVTableChild`).

Conventions.
* `addr_t`, `uint64_t` and `size_t` are 64-bit unsigned: they are natural
  numbers, and every arithmetic operation of the source is followed by an
  explicit `% 2 ^ 64`. `uint32_t` values are reduced `% 2 ^ 32`.
* The collaborators that are not part of the file (parent value object,
  target, process, module, symbol table) are records of answers: the
  `Env` and `ChildEnv` structures hold what each call of the source returns,
  a value of the C++ type of that call.
* A recompute is a pure function from the node state and the environment to
  the returned `bool`, the new node state and the list of addresses passed to
  `Process::ReadPointerFromMemory`.
* Undefined or aborting behaviour of the source (a failed `assert`, a
  division by zero, a null dereference) is a `Fault`.
-/

namespace lldb_private

/-! ## Constants and scalar helpers -/

/-- The modulus of `addr_t` / `uint64_t` / `size_t` arithmetic. -/
def UINT64_MOD : Nat := 2 ^ 64

/-- The modulus of `uint32_t` arithmetic. -/
def UINT32_MOD : Nat := 2 ^ 32

/-- The constant `LLDB_INVALID_ADDRESS`, that is `UINT64_MAX`. -/
def LLDB_INVALID_ADDRESS : Nat := 2 ^ 64 - 1

/-- Unsigned 64-bit addition. -/
def add64 (a b : Nat) : Nat := (a + b) % UINT64_MOD

/-- Unsigned 64-bit subtraction (wraps around below zero). -/
def sub64 (a b : Nat) : Nat := (a % UINT64_MOD + UINT64_MOD - b % UINT64_MOD) % UINT64_MOD

/-- Unsigned 64-bit multiplication. -/
def mul64 (a b : Nat) : Nat := (a * b) % UINT64_MOD

/-- The conversion of `printf("%16.16" PRIx64, v)`: lowercase hexadecimal
digits, padded with zeros on the left to at least sixteen digits. -/
def hex16 (v : Nat) : String :=
  let ds := Nat.toDigits 16 v
  String.mk (List.replicate (16 - ds.length) '0' ++ ds)

/-- The test `llvm::StringRef::startswith`. -/
def startswith (s pre : String) : Bool := pre.data.isPrefixOf s.data

/-! ## Collaborator answers -/

/-- Ways in which the source leaves defined behaviour. -/
inductive Fault where
  | assertionFailed
  | divisionByZero
  | nullDereference
  deriving DecidableEq, Repr

/-- The enumeration `lldb_private::AddressType`. -/
inductive AddressType where
  | eAddressTypeInvalid
  | eAddressTypeFile
  | eAddressTypeLoad
  | eAddressTypeHost
  deriving DecidableEq, Repr

/-- The enumeration `lldb::ValueType`, restricted to the two tags of this file. -/
inductive ValueType where
  | eValueTypeVTable
  | eValueTypeVTableEntry
  deriving DecidableEq, Repr

/-- The enumeration `lldb::Format`, restricted to the tags used here. -/
inductive Format where
  | eFormatDefault
  | eFormatHex
  deriving DecidableEq, Repr

/-- The enumeration `Value::ValueType`. -/
inductive Value.ValueType where
  | Invalid
  | Scalar
  | FileAddress
  | LoadAddress
  | HostAddress
  deriving DecidableEq, Repr

/-- The class `Value`: a type tag and a scalar; `scalar = none` is the void
scalar left by `Value::Clear`. -/
structure Value where
  valueType : Value.ValueType
  scalar : Option Nat
  deriving DecidableEq, Repr

/-- The call `Value::Clear()`. -/
def Value.Clear : Value := { valueType := Value.ValueType.Scalar, scalar := none }

/-- The call `GetScalar().ULongLong(fail_value)`. -/
def Value.ULongLong (v : Value) (fail_value : Nat) : Nat :=
  match v.scalar with
  | some x => x
  | none => fail_value

/-- The class `Status`: `none` is success, `some msg` a failure with its message. -/
abbrev Status := Option String

/-- The call `Status::Fail()`. -/
def Status.Fail (s : Status) : Bool := s.isSome

/-- What the source asks of a `Symbol`. -/
structure Symbol where
  /-- The answer of `GetName()`. -/
  name : String
  /-- The answer of `GetDisplayName()`. -/
  displayName : String
  /-- The answer of `GetByteSizeIsValid()`. -/
  byteSizeIsValid : Bool
  /-- The answer of `GetByteSize()`. -/
  byteSize : Nat
  /-- The answer of `GetLoadAddress(target)`. -/
  loadAddress : Nat
  deriving DecidableEq, Repr

/-- What the source asks of a `Function`: its compiler type. -/
structure Function where
  compilerType : String
  deriving DecidableEq, Repr

/-- The class `CompilerType`: `none` is the default-constructed, invalid type. -/
abbrev CompilerType := Option String

/-- The class `SymbolContext`, restricted to the members used here. -/
structure SymbolContext where
  function : Option Function
  symbol : Option Symbol
  deriving DecidableEq, Repr

/-- A resolved `Address` together with what the symbol table answers for it. -/
structure Address where
  /-- The answer of `IsValid()`. -/
  isValid : Bool
  /-- The answer of `GetLoadAddress(target)`. -/
  loadAddress : Nat
  /-- The answer of `CalculateSymbolContextSymbol()`. -/
  symbol : Option Symbol
  /-- The function filled in by `CalculateSymbolContext`. -/
  function : Option Function
  deriving DecidableEq, Repr

/-- The call `Address::CalculateSymbolContext(&sc)`. -/
def Address.CalculateSymbolContext (a : Address) : SymbolContext :=
  { function := a.function, symbol := a.symbol }

/-- What the source asks of a `Process`. -/
structure Process where
  /-- The call `ReadPointerFromMemory(addr, error)`: the pointer, or the error. -/
  ReadPointerFromMemory : Nat → Except String Nat
  /-- The answer of `GetAddressByteSize()`. -/
  GetAddressByteSize : Nat

/-- What the source asks of a `Target`. -/
structure Target where
  /-- The call `ResolveLoadAddress(load_addr, so_addr)`. -/
  ResolveLoadAddress : Nat → Address

/-- What the source asks of a `Module`. -/
structure Module where
  /-- The call `ResolveFileAddress(file_addr, so_addr)`. -/
  ResolveFileAddress : Nat → Address

/-- The value object a vtable node is bound to (its parent). -/
structure ParentObject where
  /-- The answer of `IsInScope()`. -/
  IsInScope : Bool
  /-- The answer of `UpdateValueIfNeeded(false)`. -/
  UpdateValueIfNeeded : Bool
  /-- The answer of `GetAddressOf(true, &addr_type)`. -/
  GetAddressOf : Nat × AddressType
  /-- The answer of `GetModule()`. -/
  GetModule : Option Module

/-- The environment of one `ValueObjectVTable::UpdateValue` call. -/
structure Env where
  /-- The answer of `GetParent()`. -/
  parent : Option ParentObject
  /-- The answer of `GetTargetSP()`. -/
  target : Option Target
  /-- The answer of `GetProcessSP()`. -/
  process : Option Process
  /-- Whether `assert` is compiled in (no `NDEBUG`). -/
  assertsEnabled : Bool

/-- The outcome of a recompute that returned. -/
structure UpdateResult (σ : Type) where
  /-- The returned `bool`. -/
  ret : Bool
  /-- The node state afterwards. -/
  node : σ
  /-- The addresses passed to `ReadPointerFromMemory`, in order. -/
  reads : List Nat

/-! ## ValueObjectVTable -/

/-- The state of a `ValueObjectVTable`: the members of the header and the
members of the `ValueObject` base that `UpdateValue` writes. -/
structure ValueObjectVTable where
  m_error : Status
  m_value : Value
  m_value_is_valid : Bool
  m_value_did_change : Bool
  m_name : String
  m_vtable_symbol : Option Symbol
  m_num_vtable_entries : Nat
  m_addr_size : Nat
  deriving DecidableEq, Repr

namespace ValueObjectVTable

/-- The node built by `ValueObjectVTable::Create`: the member initialisers of
the header (`nullptr`, `0`, `0`) over a fresh `ValueObject` base. -/
def Create : ValueObjectVTable :=
  { m_error := none
    m_value := Value.Clear
    m_value_is_valid := false
    m_value_did_change := false
    m_name := ""
    m_vtable_symbol := none
    m_num_vtable_entries := 0
    m_addr_size := 0 }

/-- The method `ValueObjectVTable::GetByteSize`. -/
def GetByteSize (self : ValueObjectVTable) : Option Nat :=
  match self.m_vtable_symbol with
  | some sym => some sym.byteSize
  | none => none

/-- The method `ValueObjectVTable::CalculateNumChildren`. -/
def CalculateNumChildren (self : ValueObjectVTable) (max : Nat) : Nat :=
  if self.m_num_vtable_entries ≤ max then self.m_num_vtable_entries else max

/-- The method `ValueObjectVTable::GetValueType`. -/
def GetValueType (_self : ValueObjectVTable) : ValueType := ValueType.eValueTypeVTable

/-- The method `ValueObjectVTable::GetTypeName`; the empty string is the
default `ConstString`. -/
def GetTypeName (self : ValueObjectVTable) : String :=
  match self.m_vtable_symbol with
  | some sym => sym.name
  | none => ""

/-- The method `ValueObjectVTable::GetQualifiedTypeName`. -/
def GetQualifiedTypeName (self : ValueObjectVTable) : String := self.GetTypeName

/-- The method `ValueObjectVTable::GetDisplayTypeName`. -/
def GetDisplayTypeName (self : ValueObjectVTable) : String :=
  match self.m_vtable_symbol with
  | some sym => sym.displayName
  | none => ""

/-- The method `ValueObjectVTable::IsInScope`: `GetParent()->IsInScope()`. -/
def IsInScope (e : Env) : Except Fault Bool :=
  match e.parent with
  | some parent => Except.ok parent.IsInScope
  | none => Except.error Fault.nullDereference

/-- The method `ValueObjectVTable::GetCompilerTypeImpl`. -/
def GetCompilerTypeImpl (_self : ValueObjectVTable) : CompilerType := none

/-- An early `return false` of `UpdateValue` after `m_error.SetErrorString(msg)`. -/
def failWith (s : ValueObjectVTable) (msg : String) (reads : List Nat) :
    Except Fault (UpdateResult ValueObjectVTable) :=
  Except.ok { ret := false, node := { s with m_error := some msg }, reads := reads }

/-- Lines 222-237 of `UpdateValue`: the load address of the parent, or
`LLDB_INVALID_ADDRESS`. -/
def parentLoadAddr (parent : ParentObject) : Nat :=
  match parent.GetAddressOf.2 with
  | AddressType.eAddressTypeFile =>
    match parent.GetModule with
    | none => LLDB_INVALID_ADDRESS
    | some module_sp => (module_sp.ResolveFileAddress parent.GetAddressOf.1).loadAddress
  | AddressType.eAddressTypeHost => LLDB_INVALID_ADDRESS
  | AddressType.eAddressTypeInvalid => LLDB_INVALID_ADDRESS
  | AddressType.eAddressTypeLoad => parent.GetAddressOf.1

/-- Lines 288-303 of `UpdateValue`: the state update once the symbol `sym`
(already stored in `m_vtable_symbol`) is known to be a vtable. -/
def updateState (s : ValueObjectVTable) (e : Env) (process : Process) (sym : Symbol)
    (possible_vtable_ptr : Nat) (reads : List Nat) :
    Except Fault (UpdateResult ValueObjectVTable) :=
  let s1 := { s with m_name := s.GetTypeName }
  if e.assertsEnabled && !sym.byteSizeIsValid then Except.error Fault.assertionFailed
  else
    let s2 := { s1 with m_addr_size := process.GetAddressByteSize }
    let symbol_end_addr := add64 sym.loadAddress sym.byteSize
    if s2.m_addr_size = 0 then Except.error Fault.divisionByZero
    else
      Except.ok
        { ret := true
          node :=
            { s2 with
              m_num_vtable_entries := sub64 symbol_end_addr possible_vtable_ptr / s2.m_addr_size
              m_value := { valueType := Value.ValueType.LoadAddress, scalar := some possible_vtable_ptr }
              m_value_did_change := true
              m_value_is_valid := true }
          reads := reads }

/-- The state of `UpdateValue` after line 272, when the symbol lookup answered
`sym`: error cleared, value cleared and invalid, `m_vtable_symbol` assigned. -/
def atSymbol (self : ValueObjectVTable) (sym : Symbol) : ValueObjectVTable :=
  { self with
    m_error := none, m_value_is_valid := false, m_value := Value.Clear
    m_vtable_symbol := some sym }

/-- The method `ValueObjectVTable::UpdateValue`. -/
def UpdateValue (self : ValueObjectVTable) (e : Env) :
    Except Fault (UpdateResult ValueObjectVTable) :=
  let s0 := { self with m_error := none, m_value_is_valid := false }
  match e.parent with
  | none => failWith s0 "no parent object" []
  | some parent =>
    if !parent.UpdateValueIfNeeded then failWith s0 "failed to update parent" []
    else
      match e.target with
      | none => failWith s0 "no target" []
      | some target_sp =>
        let parent_load_addr := parentLoadAddr parent
        if parent_load_addr = LLDB_INVALID_ADDRESS then failWith s0 "parent is not in memory" []
        else
          let s1 := { s0 with m_value := Value.Clear }
          match e.process with
          | none => failWith s1 "no process" []
          | some process_sp =>
            match process_sp.ReadPointerFromMemory parent_load_addr with
            | Except.error msg => failWith s1 msg [parent_load_addr]
            | Except.ok possible_vtable_ptr =>
              let resolved := target_sp.ResolveLoadAddress possible_vtable_ptr
              if !resolved.isValid then
                failWith s1 ("Unable to resolve address 0x" ++ hex16 possible_vtable_ptr)
                  [parent_load_addr]
              else
                let s2 := { s1 with m_vtable_symbol := resolved.symbol }
                match resolved.symbol with
                | none => failWith s2 "not a vtable" [parent_load_addr]
                | some sym =>
                  if !startswith sym.name "vtable for " then
                    failWith s2 "does not have a vtable" [parent_load_addr]
                  else updateState s2 e process_sp sym possible_vtable_ptr [parent_load_addr]

end ValueObjectVTable

/-! ## ValueObjectVTableChild -/

/-- The state of a `ValueObjectVTableChild`: its own members and the members
of the `ValueObject` base that the constructor and `UpdateValue` write. -/
structure ValueObjectVTableChild where
  m_func_idx : Nat
  m_addr_size : Nat
  m_sym_ctx : SymbolContext
  m_format : Format
  m_name : String
  m_error : Status
  m_value : Value
  m_value_is_valid : Bool
  m_value_did_change : Bool
  deriving DecidableEq, Repr

/-- The environment of one `ValueObjectVTableChild::UpdateValue` call. -/
structure ChildEnv where
  /-- The answer of `GetParent()`: the owning vtable node, in its current state. -/
  parent : Option ValueObjectVTable
  /-- The answer of `GetProcessSP()`. -/
  process : Option Process
  /-- The answer of `GetTargetSP()`. -/
  target : Option Target

namespace ValueObjectVTableChild

/-- The constructor `ValueObjectVTableChild(parent, func_idx, addr_size)`; the
parameter `func_idx` is a `uint32_t`, `addr_size` a `uint64_t`. -/
def new (func_idx addr_size : Nat) : ValueObjectVTableChild :=
  { m_func_idx := func_idx % UINT32_MOD
    m_addr_size := addr_size % UINT64_MOD
    m_sym_ctx := { function := none, symbol := none }
    m_format := Format.eFormatHex
    m_name := "[" ++ toString (func_idx % UINT32_MOD) ++ "]"
    m_error := none
    m_value := Value.Clear
    m_value_is_valid := false
    m_value_did_change := false }

/-- The method `ValueObjectVTableChild::GetByteSize`. -/
def GetByteSize (self : ValueObjectVTableChild) : Option Nat := some self.m_addr_size

/-- The method `ValueObjectVTableChild::CalculateNumChildren`. -/
def CalculateNumChildren (_self : ValueObjectVTableChild) (_max : Nat) : Nat := 0

/-- The method `ValueObjectVTableChild::GetValueType`. -/
def GetValueType (_self : ValueObjectVTableChild) : ValueType :=
  ValueType.eValueTypeVTableEntry

/-- The method `ValueObjectVTableChild::IsInScope`; `owner` is the environment
of the parent vtable node when there is a parent. -/
def IsInScope (owner : Option Env) : Except Fault Bool :=
  match owner with
  | none => Except.ok false
  | some e => ValueObjectVTable.IsInScope e

/-- The method `ValueObjectVTableChild::GetCompilerTypeImpl`. -/
def GetCompilerTypeImpl (self : ValueObjectVTableChild) : CompilerType :=
  match self.m_sym_ctx.function with
  | some f => some f.compilerType
  | none => none

/-- An early `return false` of `UpdateValue` after setting the error string. -/
def failWith (s : ValueObjectVTableChild) (msg : String) (reads : List Nat) :
    UpdateResult ValueObjectVTableChild :=
  { ret := false, node := { s with m_error := some msg }, reads := reads }

/-- The method `ValueObjectVTableChild::UpdateValue`. A successful
`ReadPointerFromMemory` leaves the success status in `m_error`. -/
def UpdateValue (self : ValueObjectVTableChild) (e : ChildEnv) :
    UpdateResult ValueObjectVTableChild :=
  let s0 := { self with m_value_is_valid := false, m_value := Value.Clear }
  match e.parent with
  | none => failWith s0 "no parent object" []
  | some parent =>
    let parent_addr := parent.m_value.ULongLong LLDB_INVALID_ADDRESS
    if parent_addr = LLDB_INVALID_ADDRESS then failWith s0 "parent has invalid address" []
    else
      match e.process with
      | none => failWith s0 "no process" []
      | some process_sp =>
        match e.target with
        | none => failWith s0 "no target" []
        | some target_sp =>
          let vtable_entry_addr := add64 parent_addr (mul64 self.m_func_idx self.m_addr_size)
          match process_sp.ReadPointerFromMemory vtable_entry_addr with
          | Except.error _ =>
            failWith s0 ("failed to read virtual function entry 0x" ++ hex16 vtable_entry_addr)
              [vtable_entry_addr]
          | Except.ok vfunc_ptr =>
            let s1 := { s0 with m_error := none }
            let resolved := target_sp.ResolveLoadAddress vfunc_ptr
            if !resolved.isValid then
              failWith s1 ("unable to resolve func ptr address: 0x" ++ hex16 vfunc_ptr)
                [vtable_entry_addr]
            else
              { ret := true
                node :=
                  { s1 with
                    m_sym_ctx := resolved.CalculateSymbolContext
                    m_value := { valueType := Value.ValueType.Scalar, scalar := some vfunc_ptr }
                    m_value_did_change := true
                    m_value_is_valid := true }
                reads := [vtable_entry_addr] }

end ValueObjectVTableChild

/-- The method `ValueObjectVTable::CreateChildAtIndex`; `none` is `nullptr`.
The index `idx` is a `size_t` and is narrowed to the `uint32_t` parameter of
the entry's constructor. -/
def ValueObjectVTable.CreateChildAtIndex (self : ValueObjectVTable) (idx : Nat)
    (synthetic_array_member : Bool) (_synthetic_index : Int) :
    Option ValueObjectVTableChild :=
  if synthetic_array_member then none
  else some (ValueObjectVTableChild.new idx self.m_addr_size)

/-! ## The debuggee of `test/API/functionalities/vtable/main.cpp`

A 64-bit process holding `shape`, `rect` and `not_subclass` on the stack.
Each vtable symbol is 48 bytes: offset-to-top and RTTI pointer (16 bytes),
then `Area`, `Perimeter` and the two destructor entries. -/

namespace TestVTable

/-- The symbol of the vtable of `Shape`. -/
def shapeVTable : Symbol :=
  { name := "vtable for Shape", displayName := "vtable for Shape"
    byteSizeIsValid := true, byteSize := 48, loadAddress := 0x403d80 }

/-- The symbol of the vtable of `Rectangle`. -/
def rectangleVTable : Symbol :=
  { name := "vtable for Rectangle", displayName := "vtable for Rectangle"
    byteSizeIsValid := true, byteSize := 48, loadAddress := 0x403db0 }

/-- The symbol of the function `Shape::Area()`. -/
def shapeArea : Symbol :=
  { name := "Shape::Area()", displayName := "Shape::Area()"
    byteSizeIsValid := true, byteSize := 32, loadAddress := 0x401040 }

/-- The stack address of `shape`. -/
def shapeAddr : Nat := 0x7ffe1000

/-- The stack address of `rect`. -/
def rectAddr : Nat := 0x7ffe1008

/-- The stack address of `not_subclass`. -/
def notSubclassAddr : Nat := 0x7ffe1010

/-- The target: the two vtables and `Shape::Area()` resolve, nothing else does. -/
def target : Target :=
  { ResolveLoadAddress := fun a =>
      if 0x403d80 ≤ a ∧ a < 0x403db0 then
        { isValid := true, loadAddress := a, symbol := some shapeVTable, function := none }
      else if 0x403db0 ≤ a ∧ a < 0x403de0 then
        { isValid := true, loadAddress := a, symbol := some rectangleVTable, function := none }
      else if 0x401040 ≤ a ∧ a < 0x401060 then
        { isValid := true, loadAddress := a, symbol := some shapeArea
          function := some { compilerType := "double (Shape *)" } }
      else
        { isValid := false, loadAddress := LLDB_INVALID_ADDRESS, symbol := none, function := none } }

/-- The process: the word at the address of each object, and two slots of the
vtable of `Shape`. The class `NotSubclass` has no virtual function: the word
at `not_subclass` is stack data and resolves to nothing. Slot 1 of the vtable
of `Shape` is given a pointer that resolves to nothing. -/
def process : Process :=
  { ReadPointerFromMemory := fun a =>
      if a = 0x7ffe1000 then Except.ok 0x403d90
      else if a = 0x7ffe1008 then Except.ok 0x403dc0
      else if a = 0x7ffe1010 then Except.ok 0x7ffe1020
      else if a = 0x403d90 then Except.ok 0x401040
      else if a = 0x403d98 then Except.ok 0x500000
      else Except.error "memory read failed"
    GetAddressByteSize := 8 }

/-- A variable at load address `addr`, in scope and up to date. -/
def objectAt (addr : Nat) : ParentObject :=
  { IsInScope := true, UpdateValueIfNeeded := true
    GetAddressOf := (addr, AddressType.eAddressTypeLoad), GetModule := none }

/-- The environment of the vtable node of the variable at `addr`. -/
def envAt (addr : Nat) : Env :=
  { parent := some (objectAt addr), target := some target, process := some process
    assertsEnabled := true }

/-- An environment in which the node has lost its parent. -/
def envNoParent : Env :=
  { parent := none, target := some target, process := some process, assertsEnabled := true }

/-- The vtable node of `shape` after a recompute. -/
def shapeNode : ValueObjectVTable :=
  { m_error := none
    m_value := { valueType := Value.ValueType.LoadAddress, scalar := some 0x403d90 }
    m_value_is_valid := true
    m_value_did_change := true
    m_name := "vtable for Shape"
    m_vtable_symbol := some shapeVTable
    m_num_vtable_entries := 4
    m_addr_size := 8 }

/-- The vtable node of `rect` after a recompute. -/
def rectangleNode : ValueObjectVTable :=
  { m_error := none
    m_value := { valueType := Value.ValueType.LoadAddress, scalar := some 0x403dc0 }
    m_value_is_valid := true
    m_value_did_change := true
    m_name := "vtable for Rectangle"
    m_vtable_symbol := some rectangleVTable
    m_num_vtable_entries := 4
    m_addr_size := 8 }

end TestVTable

/-! ## Single-symbol environments -/

namespace Scenario

/-- The load address of the object in `Scenario.env`. -/
def objectAddr : Nat := 0x1000

/-- An environment with one object at `objectAddr`, in scope and up to date,
whose first word is `p`; the target resolves `p` alone, to the symbol lookup
answer `sym`; the address byte size of the process is `P`. -/
def env (sym : Option Symbol) (p P : Nat) (asserts : Bool) : Env :=
  { parent := some (TestVTable.objectAt objectAddr)
    target := some
      { ResolveLoadAddress := fun a =>
          if a = p then { isValid := true, loadAddress := a, symbol := sym, function := none }
          else { isValid := false, loadAddress := LLDB_INVALID_ADDRESS, symbol := none
                 function := none } }
    process := some
      { ReadPointerFromMemory := fun a =>
          if a = objectAddr then Except.ok p else Except.error "memory read failed"
        GetAddressByteSize := P }
    assertsEnabled := asserts }

/-- A symbol with the vtable prefix whose byte size is not valid. -/
def unsizedVTable : Symbol :=
  { name := "vtable for Opaque", displayName := "vtable for Opaque"
    byteSizeIsValid := false, byteSize := 0, loadAddress := 0x403e00 }

/-- A symbol with the vtable prefix that spans `2 ^ 35 + 24` bytes. -/
def hugeVTable : Symbol :=
  { name := "vtable for Huge", displayName := "vtable for Huge"
    byteSizeIsValid := true, byteSize := 0x800000018, loadAddress := 0x403d80 }

/-- A data symbol, not a vtable. -/
def dataSymbol : Symbol :=
  { name := "global_counter", displayName := "global_counter"
    byteSizeIsValid := true, byteSize := 8, loadAddress := 0x404000 }

/-- The vtable node recomputed on `hugeVTable`, read 16 bytes past its start:
`2 ^ 32 + 1` entries of 8 bytes. -/
def hugeNode : ValueObjectVTable :=
  { m_error := none
    m_value := { valueType := Value.ValueType.LoadAddress, scalar := some 0x403d90 }
    m_value_is_valid := true
    m_value_did_change := true
    m_name := "vtable for Huge"
    m_vtable_symbol := some hugeVTable
    m_num_vtable_entries := 0x100000001
    m_addr_size := 8 }

/-- The environment of an entry of the vtable node `owner` in the debuggee of
the test. -/
def entryEnv (owner : ValueObjectVTable) : ChildEnv :=
  { parent := some owner, process := some TestVTable.process
    target := some TestVTable.target }

end Scenario

/-! ## The display string of an entry -/

/-- Whether `c` is one of the sixteen lowercase hexadecimal digits. -/
def isLowerHexDigit (c : Char) : Bool :=
  ('0'.toNat ≤ c.toNat && c.toNat ≤ '9'.toNat) || ('a'.toNat ≤ c.toNat && c.toNat ≤ 'f'.toNat)

/-- The value of a hexadecimal digit, 0 for any other character. -/
def hexDigitValue (c : Char) : Nat :=
  if '0'.toNat ≤ c.toNat ∧ c.toNat ≤ '9'.toNat then c.toNat - '0'.toNat
  else if 'a'.toNat ≤ c.toNat ∧ c.toNat ≤ 'f'.toNat then c.toNat - 'a'.toNat + 10
  else 0

/-- The number written by a list of hexadecimal digits, most significant first. -/
def hexValue (cs : List Char) : Nat :=
  cs.foldl (fun acc c => acc * 16 + hexDigitValue c) 0

namespace ValueObjectVTableChild

/-- Modelled from the spec: `ValueObject::UpdateValueIfNeeded` of the base
class, whose source (`lldb/source/Core/ValueObject.cpp`) is not part of the
files at hand. The spec makes every query of an entry recompute it ("each
entry likewise recomputes its own pointer value from the current vtable
address on query"), so the call runs `UpdateValue` and returns its result. -/
def UpdateValueIfNeeded (self : ValueObjectVTableChild) (e : ChildEnv) :
    UpdateResult ValueObjectVTableChild :=
  self.UpdateValue e

/-- The method `ValueObjectVTableChild::GetValueAsCString`; `destination` is
the string passed by reference, returned unchanged when the method returns
`false`. The result is the returned `bool`, the string and the node state. -/
def GetValueAsCString (self : ValueObjectVTableChild) (e : ChildEnv) (destination : String) :
    Bool × String × ValueObjectVTableChild :=
  let r := self.UpdateValueIfNeeded e
  if r.ret then
    let vtable_entry_addr := r.node.m_value.ULongLong LLDB_INVALID_ADDRESS
    (true, "0x" ++ hex16 vtable_entry_addr, r.node)
  else (false, destination, r.node)

end ValueObjectVTableChild

/-! ## Further environments -/

namespace Scenario

/-- The variable at `addr` of the test debuggee, up to date but out of scope. -/
def objectOutOfScope (addr : Nat) : ParentObject :=
  { IsInScope := false, UpdateValueIfNeeded := true
    GetAddressOf := (addr, AddressType.eAddressTypeLoad), GetModule := none }

/-- The environment of the vtable node of the out-of-scope variable at `addr`. -/
def envOutOfScope (addr : Nat) : Env :=
  { parent := some (objectOutOfScope addr), target := some TestVTable.target
    process := some TestVTable.process, assertsEnabled := true }

/-- A module that maps the file address `0x2000` to the load address of
`shape` and has no load address for any other file address. -/
def module : Module :=
  { ResolveFileAddress := fun a =>
      if a = 0x2000 then
        { isValid := true, loadAddress := TestVTable.shapeAddr, symbol := none, function := none }
      else
        { isValid := false, loadAddress := LLDB_INVALID_ADDRESS, symbol := none
          function := none } }

/-- The environment of the test debuggee for an object whose `GetAddressOf`
answers `addr` with the address class `ty` and whose module is `m`. -/
def envOfClass (addr : Nat) (ty : AddressType) (m : Option Module) : Env :=
  { parent := some
      { IsInScope := true, UpdateValueIfNeeded := true, GetAddressOf := (addr, ty)
        GetModule := m }
    target := some TestVTable.target
    process := some TestVTable.process
    assertsEnabled := true }

end Scenario

/-! ## Shared lemmas -/

theorem add64_eq_of_lt (a b : Nat) (h : a + b < 2 ^ 64) : add64 a b = a + b := by
  unfold add64 UINT64_MOD
  exact Nat.mod_eq_of_lt h

theorem sub64_eq_of_le (a b : Nat) (ha : a < 2 ^ 64) (hb : b ≤ a) : sub64 a b = a - b := by
  unfold sub64 UINT64_MOD
  have hb2 : b < 2 ^ 64 := lt_of_le_of_lt hb ha
  rw [Nat.mod_eq_of_lt ha, Nat.mod_eq_of_lt hb2]
  have h1 : a + 2 ^ 64 - b = (a - b) + 2 ^ 64 := by omega
  rw [h1, Nat.add_mod_right]
  exact Nat.mod_eq_of_lt (by omega)

theorem ne_empty_of_append_left (a b : String) (h : a ≠ "") : a ++ b ≠ "" := by
  intro hab
  apply h
  have hlen : (a ++ b).length = 0 := by rw [hab]; rfl
  rw [String.length_append] at hlen
  have ha : a.length = 0 := by omega
  exact String.ext (List.length_eq_zero.mp ha)

namespace ValueObjectVTable

/-- A successful `UpdateValue`: what the environment answered and the node
state it leaves. -/
theorem UpdateValue_true_inv (self : ValueObjectVTable) (e : Env)
    (r : UpdateResult ValueObjectVTable)
    (h : self.UpdateValue e = Except.ok r) (hret : r.ret = true) :
    ∃ parent target process p sym,
      e.parent = some parent ∧ parent.UpdateValueIfNeeded = true ∧
      e.target = some target ∧ parentLoadAddr parent ≠ LLDB_INVALID_ADDRESS ∧
      e.process = some process ∧
      process.ReadPointerFromMemory (parentLoadAddr parent) = Except.ok p ∧
      (target.ResolveLoadAddress p).isValid = true ∧
      (target.ResolveLoadAddress p).symbol = some sym ∧
      startswith sym.name "vtable for " = true ∧
      (e.assertsEnabled = true → sym.byteSizeIsValid = true) ∧
      process.GetAddressByteSize ≠ 0 ∧
      r.reads = [parentLoadAddr parent] ∧
      r.node =
        { m_error := none
          m_value := { valueType := Value.ValueType.LoadAddress, scalar := some p }
          m_value_is_valid := true
          m_value_did_change := true
          m_name := sym.name
          m_vtable_symbol := some sym
          m_num_vtable_entries :=
            sub64 (add64 sym.loadAddress sym.byteSize) p / process.GetAddressByteSize
          m_addr_size := process.GetAddressByteSize } := by
  unfold UpdateValue at h
  simp only [failWith] at h
  split at h
  · cases h; simp at hret
  · rename_i parent hparent
    split at h
    · cases h; simp at hret
    · rename_i hupd
      split at h
      · cases h; simp at hret
      · rename_i target htarget
        split at h
        · cases h; simp at hret
        · rename_i haddr
          split at h
          · cases h; simp at hret
          · rename_i process hprocess
            split at h
            · cases h; simp at hret
            · rename_i p hread
              split at h
              · cases h; simp at hret
              · rename_i hvalid
                split at h
                · cases h; simp at hret
                · rename_i sym hsym
                  split at h
                  · cases h; simp at hret
                  · rename_i hpre
                    unfold updateState at h
                    split at h
                    · cases h
                    · rename_i hassert
                      dsimp only at h
                      split at h
                      · cases h
                      · rename_i hsize
                        cases h
                        refine ⟨parent, target, process, p, sym, hparent, ?_, htarget, haddr,
                          hprocess, hread, ?_, hsym, ?_, ?_, ?_, rfl, ?_⟩
                        · simpa using hupd
                        · simpa using hvalid
                        · simpa using hpre
                        · intro ha; simpa [ha] using hassert
                        · simpa using hsize
                        · simp [GetTypeName, hsym]

/-- When every step up to the symbol lookup succeeds, `UpdateValue` is decided
by the prefix test and the state update. -/
theorem UpdateValue_at_symbol (self : ValueObjectVTable) (e : Env)
    (parent : ParentObject) (target : Target) (process : Process) (p : Nat) (sym : Symbol)
    (hparent : e.parent = some parent) (hupd : parent.UpdateValueIfNeeded = true)
    (htarget : e.target = some target)
    (haddr : parentLoadAddr parent ≠ LLDB_INVALID_ADDRESS)
    (hprocess : e.process = some process)
    (hread : process.ReadPointerFromMemory (parentLoadAddr parent) = Except.ok p)
    (hvalid : (target.ResolveLoadAddress p).isValid = true)
    (hsym : (target.ResolveLoadAddress p).symbol = some sym) :
    self.UpdateValue e =
      if !startswith sym.name "vtable for " then
        failWith (self.atSymbol sym) "does not have a vtable" [parentLoadAddr parent]
      else updateState (self.atSymbol sym) e process sym p [parentLoadAddr parent] := by
  unfold UpdateValue
  simp only [hparent, hupd, htarget, hprocess, hread, hvalid, hsym, atSymbol]
  simp [haddr]

/-- The state update returns `true` when the assertion holds and the address
byte size is not zero. -/
theorem updateState_ok (s : ValueObjectVTable) (e : Env) (process : Process) (sym : Symbol)
    (p : Nat) (reads : List Nat)
    (hsize : e.assertsEnabled = true → sym.byteSizeIsValid = true)
    (hP : process.GetAddressByteSize ≠ 0) :
    updateState s e process sym p reads =
      Except.ok
        { ret := true
          node :=
            { m_error := s.m_error
              m_value := { valueType := Value.ValueType.LoadAddress, scalar := some p }
              m_value_is_valid := true
              m_value_did_change := true
              m_name := s.GetTypeName
              m_vtable_symbol := s.m_vtable_symbol
              m_num_vtable_entries :=
                sub64 (add64 sym.loadAddress sym.byteSize) p / process.GetAddressByteSize
              m_addr_size := process.GetAddressByteSize }
          reads := reads } := by
  unfold updateState
  have h1 : (e.assertsEnabled && !sym.byteSizeIsValid) = false := by
    cases ha : e.assertsEnabled
    · rfl
    · simp [hsize ha]
  simp [h1, hP]

/-- The conditional of `CalculateNumChildren` is a minimum. -/
theorem CalculateNumChildren_eq_min_aux (self : ValueObjectVTable) (max : Nat) :
    self.CalculateNumChildren max = min self.m_num_vtable_entries max := by
  unfold CalculateNumChildren
  split <;> rename_i hle
  · exact (Nat.min_eq_left hle).symm
  · exact (Nat.min_eq_right (by omega)).symm

/-- An `UpdateValue` that returns `false`: what it leaves in the node. The
entry count, the pointer size and the name are the prior ones; the symbol is
the prior one, or the answer of the symbol lookup when the lookup was reached. -/
theorem UpdateValue_false_inv (self : ValueObjectVTable) (e : Env)
    (r : UpdateResult ValueObjectVTable)
    (h : self.UpdateValue e = Except.ok r) (hret : r.ret = false) :
    r.node.m_value_is_valid = false ∧
      r.node.m_num_vtable_entries = self.m_num_vtable_entries ∧
      r.node.m_addr_size = self.m_addr_size ∧
      r.node.m_name = self.m_name ∧
      (∃ msg, r.node.m_error = some msg ∧
        (msg ≠ "" ∨ ∃ parent process, e.parent = some parent ∧ e.process = some process ∧
          process.ReadPointerFromMemory (parentLoadAddr parent) = Except.error msg)) ∧
      (r.node.m_vtable_symbol = self.m_vtable_symbol ∨
        ∃ parent target process p, e.parent = some parent ∧ e.target = some target ∧
          e.process = some process ∧
          process.ReadPointerFromMemory (parentLoadAddr parent) = Except.ok p ∧
          (target.ResolveLoadAddress p).isValid = true ∧
          r.node.m_vtable_symbol = (target.ResolveLoadAddress p).symbol ∧
          ((target.ResolveLoadAddress p).symbol = none ∨
            ∃ sym, (target.ResolveLoadAddress p).symbol = some sym ∧
              startswith sym.name "vtable for " = false)) := by
  unfold UpdateValue at h
  simp only [failWith] at h
  split at h
  · cases h
    exact ⟨rfl, rfl, rfl, rfl, ⟨_, rfl, Or.inl (by decide)⟩, Or.inl rfl⟩
  · rename_i parent hparent
    split at h
    · cases h
      exact ⟨rfl, rfl, rfl, rfl, ⟨_, rfl, Or.inl (by decide)⟩, Or.inl rfl⟩
    · split at h
      · cases h
        exact ⟨rfl, rfl, rfl, rfl, ⟨_, rfl, Or.inl (by decide)⟩, Or.inl rfl⟩
      · rename_i target htarget
        split at h
        · cases h
          exact ⟨rfl, rfl, rfl, rfl, ⟨_, rfl, Or.inl (by decide)⟩, Or.inl rfl⟩
        · split at h
          · cases h
            exact ⟨rfl, rfl, rfl, rfl, ⟨_, rfl, Or.inl (by decide)⟩, Or.inl rfl⟩
          · rename_i process hprocess
            split at h
            · rename_i msg hread
              cases h
              exact ⟨rfl, rfl, rfl, rfl,
                ⟨_, rfl, Or.inr ⟨parent, process, hparent, hprocess, hread⟩⟩, Or.inl rfl⟩
            · rename_i p hread
              split at h
              · cases h
                exact ⟨rfl, rfl, rfl, rfl,
                  ⟨_, rfl, Or.inl (ne_empty_of_append_left _ _ (by decide))⟩, Or.inl rfl⟩
              · rename_i hvalid
                have hvalid' : (target.ResolveLoadAddress p).isValid = true := by
                  simpa using hvalid
                split at h
                · rename_i hsym
                  cases h
                  exact ⟨rfl, rfl, rfl, rfl, ⟨_, rfl, Or.inl (by decide)⟩,
                    Or.inr ⟨parent, target, process, p, hparent, htarget, hprocess, hread,
                      hvalid', rfl, Or.inl hsym⟩⟩
                · rename_i sym hsym
                  split at h
                  · rename_i hpre
                    cases h
                    refine ⟨rfl, rfl, rfl, rfl, ⟨_, rfl, Or.inl (by decide)⟩,
                      Or.inr ⟨parent, target, process, p, hparent, htarget, hprocess, hread,
                        hvalid', rfl, Or.inr ⟨sym, hsym, ?_⟩⟩⟩
                    simpa using hpre
                  · unfold updateState at h
                    split at h
                    · cases h
                    · dsimp only at h
                      split at h
                      · cases h
                      · cases h
                        simp at hret

end ValueObjectVTable

/-! ## The entry count -/

namespace ValueObjectVTable

/-- C1: after a successful `UpdateValue`, with `p` the pointer read at the
load address of the object, `sym` the symbol covering `p` and `P` the address
byte size of the process, the entry count is `(loadAddress sym + byteSize sym
- p) / P`: computed in unsigned 64-bit arithmetic, and equal to the plain
quotient whenever `p` is not past the end of the symbol and that end is below
`2 ^ 64`. The entries are counted from `p`, not from the start of the symbol.
The value of the node is `p`, tagged as a load address, and it is valid. -/
theorem UpdateValue_entryCount_from_read_address
    (self : ValueObjectVTable) (e : Env) (r : UpdateResult ValueObjectVTable)
    (parent : ParentObject) (target : Target) (process : Process) (p : Nat) (sym : Symbol)
    (hparent : e.parent = some parent) (htarget : e.target = some target)
    (hprocess : e.process = some process)
    (hread : process.ReadPointerFromMemory (parentLoadAddr parent) = Except.ok p)
    (hsym : (target.ResolveLoadAddress p).symbol = some sym)
    (h : self.UpdateValue e = Except.ok r) (hret : r.ret = true) :
    r.node.m_num_vtable_entries =
        sub64 (add64 sym.loadAddress sym.byteSize) p / process.GetAddressByteSize ∧
      (p ≤ sym.loadAddress + sym.byteSize → sym.loadAddress + sym.byteSize < 2 ^ 64 →
        r.node.m_num_vtable_entries =
          (sym.loadAddress + sym.byteSize - p) / process.GetAddressByteSize) ∧
      r.node.m_value = { valueType := Value.ValueType.LoadAddress, scalar := some p } ∧
      r.node.m_value_is_valid = true := by
  obtain ⟨parent', target', process', p', sym', h1, -, h3, -, h5, h6, -, h8, -, -, -, -, hnode⟩ :=
    UpdateValue_true_inv self e r h hret
  rw [hparent] at h1; cases h1
  rw [htarget] at h3; cases h3
  rw [hprocess] at h5; cases h5
  rw [hread] at h6; cases h6
  rw [hsym] at h8; cases h8
  rw [hnode]
  refine ⟨rfl, ?_, rfl, rfl⟩
  intro hle hlt
  show sub64 (add64 sym.loadAddress sym.byteSize) p / process.GetAddressByteSize = _
  rw [add64_eq_of_lt _ _ hlt, sub64_eq_of_le _ _ hlt hle]

/-- The vtable of `Shape`: a 48-byte symbol, the pointer read 16 bytes past its
start and 8-byte pointers give 4 entries. -/
theorem UpdateValue_entryCount_from_read_address_Shape :
    ∃ r, Create.UpdateValue (TestVTable.envAt TestVTable.shapeAddr) = Except.ok r ∧
      r.ret = true ∧
      r.node.m_num_vtable_entries = (0x403d80 + 48 - 0x403d90) / 8 ∧
      (0x403d80 + 48 - 0x403d90) / 8 = 4 ∧
      r.node.m_value = { valueType := Value.ValueType.LoadAddress, scalar := some 0x403d90 } :=
  have h := UpdateValue_entryCount_from_read_address Create
    (TestVTable.envAt TestVTable.shapeAddr) _ (TestVTable.objectAt TestVTable.shapeAddr)
    TestVTable.target TestVTable.process 0x403d90 TestVTable.shapeVTable
    rfl rfl rfl rfl rfl rfl rfl
  ⟨_, rfl, rfl, h.2.1 (by decide) (by decide), by decide, h.2.2.1⟩

/-- C2, as stated, fails on the vtable of `Shape`: the symbol has the prefix
and a valid byte size of 48, the pointer size is 8, and the entry count after
`UpdateValue` is 4, not `48 / 8 = 6`. -/
theorem entryCount_ne_byteSize_div_Shape :
    ∃ r, Create.UpdateValue (TestVTable.envAt TestVTable.shapeAddr) = Except.ok r ∧
      r.ret = true ∧
      r.node.m_vtable_symbol = some TestVTable.shapeVTable ∧
      startswith TestVTable.shapeVTable.name "vtable for " = true ∧
      TestVTable.shapeVTable.byteSizeIsValid = true ∧
      r.node.m_num_vtable_entries = 4 ∧
      TestVTable.shapeVTable.byteSize / TestVTable.process.GetAddressByteSize = 6 ∧
      r.node.m_num_vtable_entries ≠
        TestVTable.shapeVTable.byteSize / TestVTable.process.GetAddressByteSize :=
  ⟨_, rfl, rfl, rfl, by decide, rfl, rfl, by decide, by decide⟩

/-- C2, amended: when the first pointer-sized slot of the object holds `p`,
`p` resolves to a symbol with the prefix `"vtable for "` and a valid byte size
`S`, and the pointer size `P` is not zero, `UpdateValue` returns `true` with
the entry count `(loadAddress sym + S - p) / P` in unsigned 64-bit arithmetic;
this is `S / P` when `p` is the start of the symbol. -/
theorem UpdateValue_entryCount_of_vtable_symbol
    (self : ValueObjectVTable) (e : Env)
    (parent : ParentObject) (target : Target) (process : Process) (p : Nat) (sym : Symbol)
    (hparent : e.parent = some parent) (hupd : parent.UpdateValueIfNeeded = true)
    (htarget : e.target = some target)
    (haddr : parentLoadAddr parent ≠ LLDB_INVALID_ADDRESS)
    (hprocess : e.process = some process)
    (hread : process.ReadPointerFromMemory (parentLoadAddr parent) = Except.ok p)
    (hvalid : (target.ResolveLoadAddress p).isValid = true)
    (hsym : (target.ResolveLoadAddress p).symbol = some sym)
    (hpre : startswith sym.name "vtable for " = true)
    (hsize : sym.byteSizeIsValid = true)
    (hP : process.GetAddressByteSize ≠ 0) :
    ∃ r, self.UpdateValue e = Except.ok r ∧ r.ret = true ∧
      r.node.m_num_vtable_entries =
        sub64 (add64 sym.loadAddress sym.byteSize) p / process.GetAddressByteSize ∧
      (p ≤ sym.loadAddress + sym.byteSize → sym.loadAddress + sym.byteSize < 2 ^ 64 →
        r.node.m_num_vtable_entries =
          (sym.loadAddress + sym.byteSize - p) / process.GetAddressByteSize) ∧
      (p = sym.loadAddress → sym.loadAddress + sym.byteSize < 2 ^ 64 →
        r.node.m_num_vtable_entries = sym.byteSize / process.GetAddressByteSize) := by
  have hrun := UpdateValue_at_symbol self e parent target process p sym hparent hupd htarget
    haddr hprocess hread hvalid hsym
  rw [hpre, updateState_ok _ _ _ _ _ _ (fun _ => hsize) hP] at hrun
  refine ⟨_, hrun, rfl, rfl, ?_, ?_⟩
  · intro hle hlt
    show sub64 (add64 sym.loadAddress sym.byteSize) p / process.GetAddressByteSize = _
    rw [add64_eq_of_lt _ _ hlt, sub64_eq_of_le _ _ hlt hle]
  · intro hp hlt
    show sub64 (add64 sym.loadAddress sym.byteSize) p / process.GetAddressByteSize = _
    rw [add64_eq_of_lt _ _ hlt, sub64_eq_of_le _ _ hlt (by omega), hp, Nat.add_sub_cancel_left]

/-- The vtable of `Rectangle`, entered through `rect`: `UpdateValue` returns
`true` and counts `(0x403db0 + 48 - 0x403dc0) / 8 = 4` entries. -/
theorem UpdateValue_entryCount_of_vtable_symbol_Rectangle :
    ∃ r, Create.UpdateValue (TestVTable.envAt TestVTable.rectAddr) = Except.ok r ∧
      r.ret = true ∧
      r.node.m_num_vtable_entries = (0x403db0 + 48 - 0x403dc0) / 8 :=
  have h := UpdateValue_entryCount_of_vtable_symbol Create
    (TestVTable.envAt TestVTable.rectAddr) (TestVTable.objectAt TestVTable.rectAddr)
    TestVTable.target TestVTable.process 0x403dc0 TestVTable.rectangleVTable
    rfl rfl rfl (by decide) rfl rfl rfl rfl (by decide) rfl (by decide)
  h.elim fun r hr => ⟨r, hr.1, hr.2.1, hr.2.2.2.1 (by decide) (by decide)⟩

/-- C3: `CalculateNumChildren(max)` is `min(entryCount, max)`; it exceeds
neither `max` nor the entry count. -/
theorem CalculateNumChildren_eq_min (self : ValueObjectVTable) (max : Nat) :
    self.CalculateNumChildren max = min self.m_num_vtable_entries max ∧
      self.CalculateNumChildren max ≤ max ∧
      self.CalculateNumChildren max ≤ self.m_num_vtable_entries := by
  unfold CalculateNumChildren
  split <;> rename_i hle
  · exact ⟨(Nat.min_eq_left hle).symm, hle, le_refl _⟩
  · have hlt : max ≤ self.m_num_vtable_entries := by omega
    exact ⟨(Nat.min_eq_right hlt).symm, le_refl _, hlt⟩

end ValueObjectVTable

/-! ## The symbol after a failure -/

namespace ValueObjectVTable

/-- An `UpdateValue` that returns `false` either leaves the stored symbol as it
was, or went through every step up to the symbol lookup and stored its answer. -/
theorem UpdateValue_false_lookup_inv (self : ValueObjectVTable) (e : Env)
    (r : UpdateResult ValueObjectVTable)
    (h : self.UpdateValue e = Except.ok r) (hret : r.ret = false) :
    r.node.m_vtable_symbol = self.m_vtable_symbol ∨
      ∃ parent target process p, e.parent = some parent ∧
        parent.UpdateValueIfNeeded = true ∧ e.target = some target ∧
        parentLoadAddr parent ≠ LLDB_INVALID_ADDRESS ∧ e.process = some process ∧
        process.ReadPointerFromMemory (parentLoadAddr parent) = Except.ok p ∧
        (target.ResolveLoadAddress p).isValid = true ∧
        r.node.m_vtable_symbol = (target.ResolveLoadAddress p).symbol := by
  unfold UpdateValue at h
  simp only [failWith] at h
  split at h
  · cases h; exact Or.inl rfl
  · rename_i parent hparent
    split at h
    · cases h; exact Or.inl rfl
    · rename_i hupd0
      have hupd : parent.UpdateValueIfNeeded = true := by simpa using hupd0
      split at h
      · cases h; exact Or.inl rfl
      · rename_i target htarget
        split at h
        · cases h; exact Or.inl rfl
        · rename_i haddr
          split at h
          · cases h; exact Or.inl rfl
          · rename_i process hprocess
            split at h
            · cases h; exact Or.inl rfl
            · rename_i p hread
              split at h
              · cases h; exact Or.inl rfl
              · rename_i hvalid0
                have hvalid : (target.ResolveLoadAddress p).isValid = true := by
                  simpa using hvalid0
                refine Or.inr ⟨parent, target, process, p, hparent, hupd, htarget, haddr,
                  hprocess, hread, hvalid, ?_⟩
                split at h
                · cases h
                  rfl
                · split at h
                  · cases h
                    rfl
                  · unfold updateState at h
                    split at h
                    · cases h
                    · dsimp only at h
                      split at h
                      · cases h
                      · cases h
                        simp at hret

/-- When every step up to the symbol lookup succeeds and the lookup finds no
symbol, `UpdateValue` stores the absence of a symbol and returns `false`. -/
theorem UpdateValue_without_symbol (self : ValueObjectVTable) (e : Env)
    (parent : ParentObject) (target : Target) (process : Process) (p : Nat)
    (hparent : e.parent = some parent) (hupd : parent.UpdateValueIfNeeded = true)
    (htarget : e.target = some target)
    (haddr : parentLoadAddr parent ≠ LLDB_INVALID_ADDRESS)
    (hprocess : e.process = some process)
    (hread : process.ReadPointerFromMemory (parentLoadAddr parent) = Except.ok p)
    (hvalid : (target.ResolveLoadAddress p).isValid = true)
    (hsym : (target.ResolveLoadAddress p).symbol = none) :
    self.UpdateValue e =
      Except.ok
        { ret := false
          node :=
            { self with
              m_error := some "not a vtable", m_value_is_valid := false
              m_value := Value.Clear, m_vtable_symbol := none }
          reads := [parentLoadAddr parent] } := by
  unfold UpdateValue
  simp only [hparent, hupd, htarget, hprocess, hread, hvalid, hsym, failWith]
  simp [haddr]

end ValueObjectVTable

/-! ## Failure and recomputation -/

namespace ValueObjectVTable

/-- C4, as stated, fails: the node of `shape` is recomputed with success, then
recomputed on an object whose first word resolves to nothing. The second call
returns `false` and marks the node invalid, but the symbol of `Shape` is still
stored, `GetByteSize()` is still 48 and `CalculateNumChildren(10)` is still 4. -/
theorem failed_UpdateValue_keeps_prior_symbol_and_count :
    Create.UpdateValue (TestVTable.envAt TestVTable.shapeAddr) =
        Except.ok { ret := true, node := TestVTable.shapeNode, reads := [TestVTable.shapeAddr] } ∧
      ∃ r, TestVTable.shapeNode.UpdateValue (TestVTable.envAt TestVTable.notSubclassAddr) =
          Except.ok r ∧
        r.ret = false ∧ r.node.m_value_is_valid = false ∧
        r.node.m_vtable_symbol = some TestVTable.shapeVTable ∧
        r.node.GetByteSize = some 48 ∧
        r.node.CalculateNumChildren 10 = 4 :=
  ⟨rfl, _, rfl, rfl, rfl, rfl, rfl, by decide⟩

/-- C4, amended: when `UpdateValue` returns `false`, the node is marked invalid
and an error is stored, non-empty unless it is the message of the failed
memory read, which is stored as the process gave it. The entry count and the
pointer size are the prior ones, so `CalculateNumChildren(max)` is the minimum
of the prior entry count and `max`, and 0 when the prior count was 0. When the
failure is before the symbol lookup (no parent, parent update failed, no
target, no load address, no process, memory read failed, unresolved address)
the symbol and `GetByteSize()` are the prior ones. When every step up to the
lookup succeeds and the lookup finds no symbol, no symbol is stored and
`GetByteSize()` is absent. The only other failure is a symbol whose name lacks
the prefix. -/
theorem UpdateValue_failure_state (self : ValueObjectVTable) (e : Env)
    (r : UpdateResult ValueObjectVTable)
    (h : self.UpdateValue e = Except.ok r) (hret : r.ret = false) :
    r.node.m_value_is_valid = false ∧
      (∃ msg, r.node.m_error = some msg ∧
        (msg ≠ "" ∨ ∃ parent process, e.parent = some parent ∧ e.process = some process ∧
          process.ReadPointerFromMemory (parentLoadAddr parent) = Except.error msg)) ∧
      r.node.m_num_vtable_entries = self.m_num_vtable_entries ∧
      r.node.m_addr_size = self.m_addr_size ∧
      (∀ max, r.node.CalculateNumChildren max = min self.m_num_vtable_entries max) ∧
      (self.m_num_vtable_entries = 0 → ∀ max, r.node.CalculateNumChildren max = 0) ∧
      ((e.parent = none ∨
          ∃ parent, e.parent = some parent ∧
            (parent.UpdateValueIfNeeded = false ∨ e.target = none ∨
              parentLoadAddr parent = LLDB_INVALID_ADDRESS ∨ e.process = none ∨
              (∃ process msg, e.process = some process ∧
                process.ReadPointerFromMemory (parentLoadAddr parent) = Except.error msg) ∨
              ∃ target process p, e.target = some target ∧ e.process = some process ∧
                process.ReadPointerFromMemory (parentLoadAddr parent) = Except.ok p ∧
                (target.ResolveLoadAddress p).isValid = false)) →
        r.node.m_vtable_symbol = self.m_vtable_symbol ∧
          r.node.GetByteSize = self.GetByteSize) ∧
      (∀ parent target process p, e.parent = some parent →
        parent.UpdateValueIfNeeded = true → e.target = some target →
        parentLoadAddr parent ≠ LLDB_INVALID_ADDRESS → e.process = some process →
        process.ReadPointerFromMemory (parentLoadAddr parent) = Except.ok p →
        (target.ResolveLoadAddress p).isValid = true →
        (target.ResolveLoadAddress p).symbol = none →
        r.node.m_vtable_symbol = none ∧ r.node.GetByteSize = none) ∧
      ((r.node.m_vtable_symbol = self.m_vtable_symbol ∧ r.node.GetByteSize = self.GetByteSize) ∨
        ∃ parent target process p, e.parent = some parent ∧ e.target = some target ∧
          e.process = some process ∧
          process.ReadPointerFromMemory (parentLoadAddr parent) = Except.ok p ∧
          (target.ResolveLoadAddress p).isValid = true ∧
          (((target.ResolveLoadAddress p).symbol = none ∧ r.node.m_vtable_symbol = none ∧
              r.node.GetByteSize = none) ∨
            ∃ sym, (target.ResolveLoadAddress p).symbol = some sym ∧
              startswith sym.name "vtable for " = false)) := by
  obtain ⟨hv, hn, ha, -, hmsg, hsym⟩ := UpdateValue_false_inv self e r h hret
  have hcount : ∀ max, r.node.CalculateNumChildren max = min self.m_num_vtable_entries max := by
    intro max
    rw [(CalculateNumChildren_eq_min_aux r.node max), hn]
  refine ⟨hv, hmsg, hn, ha, hcount, ?_, ?_, ?_, ?_⟩
  · intro h0 max
    rw [hcount max, h0, Nat.zero_min]
  · intro hbefore
    have hprior : r.node.m_vtable_symbol = self.m_vtable_symbol := by
      rcases UpdateValue_false_lookup_inv self e r h hret with hs |
        ⟨parent, target, process, p, h1, h2, h3, h4, h5, h6, h7, -⟩
      · exact hs
      · exfalso
        rcases hbefore with hnone | ⟨parent', hp', hcase⟩
        · rw [hnone] at h1; cases h1
        · rw [hp'] at h1; cases h1
          rcases hcase with hc | hc | hc | hc | ⟨process', msg, hpr, hc⟩ |
            ⟨target', process', p', ht, hpr, hrd, hc⟩
          · rw [hc] at h2; cases h2
          · rw [hc] at h3; cases h3
          · exact h4 hc
          · rw [hc] at h5; cases h5
          · rw [hpr] at h5; cases h5
            rw [hc] at h6; cases h6
          · rw [ht] at h3; cases h3
            rw [hpr] at h5; cases h5
            rw [hrd] at h6; cases h6
            rw [hc] at h7; cases h7
    exact ⟨hprior, by simp [GetByteSize, hprior]⟩
  · intro parent target process p h1 h2 h3 h4 h5 h6 h7 h8
    have hrun := UpdateValue_without_symbol self e parent target process p h1 h2 h3 h4 h5 h6 h7 h8
    rw [hrun] at h
    cases h
    exact ⟨rfl, rfl⟩
  · rcases hsym with hs | ⟨parent, target, process, p, h1, h2, h3, h4, h5, h6, h7⟩
    · exact Or.inl ⟨hs, by simp [GetByteSize, hs]⟩
    · refine Or.inr ⟨parent, target, process, p, h1, h2, h3, h4, h5, ?_⟩
      rcases h7 with hnone | hsome
      · rw [hnone] at h6
        exact Or.inl ⟨hnone, h6, by simp [GetByteSize, h6]⟩
      · exact Or.inr hsome

/-- The node of `shape`, recomputed twice with failure. After its parent is
gone the node is invalid, the error is stored, and the symbol of `Shape`, its
byte size and the entry count 4 are still there. When its first word resolves
to an address that no symbol covers, the symbol and the byte size are gone and
the entry count is still 4. -/
theorem UpdateValue_failure_state_no_parent :
    (∃ r, TestVTable.shapeNode.UpdateValue TestVTable.envNoParent = Except.ok r ∧
        r.ret = false ∧ r.node.m_value_is_valid = false ∧
        r.node.m_error = some "no parent object" ∧
        r.node.m_num_vtable_entries = TestVTable.shapeNode.m_num_vtable_entries ∧
        TestVTable.shapeNode.m_num_vtable_entries = 4 ∧
        r.node.m_vtable_symbol = TestVTable.shapeNode.m_vtable_symbol ∧
        r.node.GetByteSize = TestVTable.shapeNode.GetByteSize ∧
        TestVTable.shapeNode.GetByteSize = some 48) ∧
      ∃ r, TestVTable.shapeNode.UpdateValue (Scenario.env none 0x500000 8 true) = Except.ok r ∧
        r.ret = false ∧ r.node.m_vtable_symbol = none ∧ r.node.GetByteSize = none ∧
        r.node.m_num_vtable_entries = TestVTable.shapeNode.m_num_vtable_entries :=
  have h := UpdateValue_failure_state TestVTable.shapeNode TestVTable.envNoParent _ rfl rfl
  have h2 := UpdateValue_failure_state TestVTable.shapeNode (Scenario.env none 0x500000 8 true)
    _ rfl rfl
  have hA := h.2.2.2.2.2.2.1 (Or.inl rfl)
  have hB := h2.2.2.2.2.2.2.2.1 (TestVTable.objectAt Scenario.objectAddr) _ _ 0x500000
    rfl rfl rfl (by decide) rfl rfl rfl rfl
  ⟨⟨_, rfl, rfl, h.1, rfl, h.2.2.1, rfl, hA.1, hA.2, rfl⟩,
    ⟨_, rfl, rfl, hB.1, hB.2, h2.2.2.1⟩⟩

/-- C5: a successful `UpdateValue` does not depend on the prior node state.
If it succeeds from `s1` in the environment `e`, it gives the very same result
from every `s2`, and the symbol, type name, byte size, pointer size, entry
count and value of that result are those the environment answers for the
object read now. -/
theorem UpdateValue_success_independent_of_prior_state
    (s1 s2 : ValueObjectVTable) (e : Env) (r : UpdateResult ValueObjectVTable)
    (h : s1.UpdateValue e = Except.ok r) (hret : r.ret = true) :
    s2.UpdateValue e = Except.ok r ∧
      ∃ parent target process p sym,
        e.parent = some parent ∧ e.target = some target ∧ e.process = some process ∧
        process.ReadPointerFromMemory (parentLoadAddr parent) = Except.ok p ∧
        (target.ResolveLoadAddress p).symbol = some sym ∧
        r.node.m_vtable_symbol = some sym ∧
        r.node.GetTypeName = sym.name ∧
        r.node.GetByteSize = some sym.byteSize ∧
        r.node.m_addr_size = process.GetAddressByteSize ∧
        r.node.m_num_vtable_entries =
          sub64 (add64 sym.loadAddress sym.byteSize) p / process.GetAddressByteSize ∧
        r.node.m_value = { valueType := Value.ValueType.LoadAddress, scalar := some p } := by
  obtain ⟨parent, target, process, p, sym, h1, h2, h3, h4, h5, h6, h7, h8, h9, h10, h11, hreads,
    hnode⟩ := UpdateValue_true_inv s1 e r h hret
  have hrun := UpdateValue_at_symbol s2 e parent target process p sym h1 h2 h3 h4 h5 h6 h7 h8
  rw [h9, updateState_ok _ _ _ _ _ _ h10 h11] at hrun
  have hr : r = { ret := true, node := r.node, reads := [parentLoadAddr parent] } := by
    cases r
    simp only at hret hreads
    simp [hret, hreads]
  refine ⟨?_, parent, target, process, p, sym, h1, h3, h5, h6, h8, ?_⟩
  · rw [hrun, hr, hnode]
    rfl
  · rw [hnode]
    exact ⟨rfl, rfl, rfl, rfl, rfl, rfl⟩

/-- The pointer `shape_ptr` of the test: the node that reported the vtable of
`Rectangle` reports, once the pointer is `&shape`, exactly what a fresh node
reports, the vtable of `Shape`. -/
theorem UpdateValue_success_independent_of_prior_state_shape_ptr :
    Create.UpdateValue (TestVTable.envAt TestVTable.rectAddr) =
        Except.ok { ret := true, node := TestVTable.rectangleNode
                    reads := [TestVTable.rectAddr] } ∧
      TestVTable.rectangleNode.UpdateValue (TestVTable.envAt TestVTable.shapeAddr) =
        Except.ok { ret := true, node := TestVTable.shapeNode
                    reads := [TestVTable.shapeAddr] } ∧
      TestVTable.shapeNode.GetTypeName = "vtable for Shape" :=
  ⟨rfl,
    (UpdateValue_success_independent_of_prior_state Create TestVTable.rectangleNode
      (TestVTable.envAt TestVTable.shapeAddr) _ rfl rfl).1,
    rfl⟩

end ValueObjectVTable

/-! ## Objects without a vtable -/

namespace ValueObjectVTable

/-- C6: on a newly created node, when the pointer read at the address of the
object resolves to no valid address, to no symbol, or to a symbol whose name
does not begin with `"vtable for "`, `UpdateValue` returns `false` (it does
return, there is no fault), the entry count is 0, `CalculateNumChildren` is 0
for every `max`, and the stored error string is not empty. -/
theorem UpdateValue_fresh_without_vtable (e : Env)
    (parent : ParentObject) (target : Target) (process : Process) (p : Nat)
    (hparent : e.parent = some parent) (hupd : parent.UpdateValueIfNeeded = true)
    (htarget : e.target = some target)
    (haddr : parentLoadAddr parent ≠ LLDB_INVALID_ADDRESS)
    (hprocess : e.process = some process)
    (hread : process.ReadPointerFromMemory (parentLoadAddr parent) = Except.ok p)
    (hno : (target.ResolveLoadAddress p).isValid = false ∨
      (target.ResolveLoadAddress p).symbol = none ∨
      ∃ sym, (target.ResolveLoadAddress p).symbol = some sym ∧
        startswith sym.name "vtable for " = false) :
    ∃ r, Create.UpdateValue e = Except.ok r ∧ r.ret = false ∧
      r.node.m_num_vtable_entries = 0 ∧
      (∀ max, r.node.CalculateNumChildren max = 0) ∧
      ∃ msg, r.node.m_error = some msg ∧ msg ≠ "" := by
  have hex : ∃ r, Create.UpdateValue e = Except.ok r ∧ r.ret = false := by
    unfold UpdateValue
    simp only [hparent, hupd, htarget, hprocess, hread, failWith]
    simp only [haddr, if_false, Bool.not_true, Bool.false_eq_true]
    cases hv : (target.ResolveLoadAddress p).isValid
    · exact ⟨_, rfl, rfl⟩
    · rcases hno with h1 | h2 | ⟨sym, h3, h4⟩
      · rw [hv] at h1; cases h1
      · simp only [h2]
        exact ⟨_, rfl, rfl⟩
      · simp only [h3, h4]
        exact ⟨_, rfl, rfl⟩
  obtain ⟨r, hr, hret⟩ := hex
  obtain ⟨-, hn, -, -, ⟨msg, hmsg, hne⟩, -⟩ := UpdateValue_false_inv Create e r hr hret
  have hn0 : r.node.m_num_vtable_entries = 0 := hn
  refine ⟨r, hr, hret, hn0, ?_, msg, hmsg, ?_⟩
  · intro max
    rw [CalculateNumChildren_eq_min_aux, hn0, Nat.zero_min]
  · rcases hne with hne | ⟨parent', process', h1, h2, h3⟩
    · exact hne
    · rw [hparent] at h1; cases h1
      rw [hprocess] at h2; cases h2
      rw [hread] at h3; cases h3

/-- The object `not_subclass` of the test: its class has no virtual function,
the word at its address resolves to nothing, and the fresh node reports no
children and the error of the failed resolution. -/
theorem UpdateValue_fresh_without_vtable_NotSubclass :
    ∃ r, Create.UpdateValue (TestVTable.envAt TestVTable.notSubclassAddr) = Except.ok r ∧
      r.ret = false ∧ r.node.m_num_vtable_entries = 0 ∧
      (∀ max, r.node.CalculateNumChildren max = 0) ∧
      ∃ msg, r.node.m_error = some msg ∧ msg ≠ "" :=
  UpdateValue_fresh_without_vtable (TestVTable.envAt TestVTable.notSubclassAddr)
    (TestVTable.objectAt TestVTable.notSubclassAddr) TestVTable.target TestVTable.process
    0x7ffe1020 rfl rfl rfl (by decide) rfl rfl (Or.inl rfl)

/-- C7, evaluated where the code breaks it: the object's first word resolves
to a symbol named `"vtable for Opaque"`, every step before the prefix test
succeeds and the name has the prefix, so the claim has `UpdateValue` return
`true`. The byte size of the symbol is not valid and nothing has tested it:
with assertions compiled in, the assertion of line 293 stops the call and
nothing is returned; the same call with assertions compiled out returns
`true`. -/
theorem UpdateValue_vtable_name_without_valid_size :
    startswith Scenario.unsizedVTable.name "vtable for " = true ∧
      Scenario.unsizedVTable.byteSizeIsValid = false ∧
      Create.UpdateValue (Scenario.env (some Scenario.unsizedVTable) 0x403e00 8 true) =
        Except.error Fault.assertionFailed ∧
      ∃ r, Create.UpdateValue (Scenario.env (some Scenario.unsizedVTable) 0x403e00 8 false) =
          Except.ok r ∧ r.ret = true :=
  ⟨by decide, rfl, rfl, _, rfl, rfl⟩

/-- The prefix test where the assertion of line 293 holds. When every earlier
step succeeds, a covering symbol exists, its byte size is valid (or assertions
are compiled out) and the address byte size is not zero, `UpdateValue` returns,
and it returns `true` exactly when the name of the symbol begins with
`"vtable for "`; without the prefix it returns `false` with the error
`"does not have a vtable"` and the node invalid. -/
theorem UpdateValue_true_iff_vtable_name (self : ValueObjectVTable) (e : Env)
    (parent : ParentObject) (target : Target) (process : Process) (p : Nat) (sym : Symbol)
    (hparent : e.parent = some parent) (hupd : parent.UpdateValueIfNeeded = true)
    (htarget : e.target = some target)
    (haddr : parentLoadAddr parent ≠ LLDB_INVALID_ADDRESS)
    (hprocess : e.process = some process)
    (hread : process.ReadPointerFromMemory (parentLoadAddr parent) = Except.ok p)
    (hvalid : (target.ResolveLoadAddress p).isValid = true)
    (hsym : (target.ResolveLoadAddress p).symbol = some sym)
    (hsize : e.assertsEnabled = true → sym.byteSizeIsValid = true)
    (hP : process.GetAddressByteSize ≠ 0) :
    ∃ r, self.UpdateValue e = Except.ok r ∧
      (r.ret = true ↔ startswith sym.name "vtable for " = true) ∧
      (startswith sym.name "vtable for " = false →
        r.ret = false ∧ r.node.m_error = some "does not have a vtable" ∧
          r.node.m_value_is_valid = false) := by
  have hrun := UpdateValue_at_symbol self e parent target process p sym hparent hupd htarget
    haddr hprocess hread hvalid hsym
  cases hpre : startswith sym.name "vtable for "
  · rw [hpre] at hrun
    refine ⟨_, hrun, ?_, ?_⟩
    · constructor
      · intro hret
        cases hret
      · intro hf
        cases hf
    · intro _
      exact ⟨rfl, rfl, rfl⟩
  · rw [hpre, updateState_ok _ _ _ _ _ _ hsize hP] at hrun
    refine ⟨_, hrun, ?_, ?_⟩
    · exact ⟨fun _ => rfl, fun _ => rfl⟩
    · intro hf
      cases hf

/-- A pointer to a data symbol: every step before the prefix test succeeds,
the name `"global_counter"` lacks the prefix, and the call returns `false`
with the error `"does not have a vtable"`. -/
theorem UpdateValue_true_iff_vtable_name_data_symbol :
    startswith Scenario.dataSymbol.name "vtable for " = false ∧
      ∃ r, Create.UpdateValue (Scenario.env (some Scenario.dataSymbol) 0x404000 8 true) =
          Except.ok r ∧
        (r.ret = true ↔ startswith Scenario.dataSymbol.name "vtable for " = true) ∧
        (startswith Scenario.dataSymbol.name "vtable for " = false →
          r.ret = false ∧ r.node.m_error = some "does not have a vtable" ∧
            r.node.m_value_is_valid = false) :=
  ⟨by decide,
    UpdateValue_true_iff_vtable_name Create
      (Scenario.env (some Scenario.dataSymbol) 0x404000 8 true)
      (TestVTable.objectAt Scenario.objectAddr) _ _ 0x404000 Scenario.dataSymbol
      rfl rfl rfl (by decide) rfl rfl rfl rfl (fun _ => rfl) (by decide)⟩

end ValueObjectVTable

/-! ## Entries -/

theorem mul64_mod_right (a b : Nat) : mul64 a (b % UINT64_MOD) = mul64 a b := by
  unfold mul64
  rw [Nat.mul_mod, Nat.mod_mod, ← Nat.mul_mod]

namespace ValueObjectVTableChild

/-- The run of `UpdateValue` of an entry once the owner, its address, the
process and the target are there: one read, at the slot address. -/
theorem UpdateValue_reads (self : ValueObjectVTableChild) (e : ChildEnv)
    (owner : ValueObjectVTable) (process : Process) (target : Target)
    (hparent : e.parent = some owner)
    (hV : owner.m_value.ULongLong LLDB_INVALID_ADDRESS ≠ LLDB_INVALID_ADDRESS)
    (hprocess : e.process = some process) (htarget : e.target = some target) :
    (self.UpdateValue e).reads =
      [add64 (owner.m_value.ULongLong LLDB_INVALID_ADDRESS)
        (mul64 self.m_func_idx self.m_addr_size)] := by
  unfold UpdateValue
  simp only [hparent, hprocess, htarget, failWith]
  simp only [hV, if_false]
  split
  · rfl
  · split <;> rfl

end ValueObjectVTableChild

namespace ValueObjectVTable

/-- C8, as stated, fails for an index that does not fit 32 bits: the node
recomputed on a symbol of `2 ^ 35 + 24` bytes has `2 ^ 32 + 1` entries, value
`V = 0x403d90` and pointer size 8; the entry created for `i = 2 ^ 32` has slot
index 0 and reads at `V`, not at `V + i * 8`. -/
theorem entry_index_narrowed_to_32_bits :
    Create.UpdateValue (Scenario.env (some Scenario.hugeVTable) 0x403d90 8 true) =
        Except.ok { ret := true, node := Scenario.hugeNode, reads := [Scenario.objectAddr] } ∧
      2 ^ 32 < Scenario.hugeNode.m_num_vtable_entries ∧
      ∃ c, Scenario.hugeNode.CreateChildAtIndex (2 ^ 32) false 0 = some c ∧
        c.m_func_idx = 0 ∧
        (c.UpdateValue (Scenario.entryEnv Scenario.hugeNode)).reads = [0x403d90] ∧
        add64 0x403d90 (mul64 (2 ^ 32) 8) = 0x800403d90 :=
  ⟨rfl, by decide, _, rfl, rfl, rfl, by decide⟩

/-- C8, amended: for a vtable node whose value is `V`, different from
`LLDB_INVALID_ADDRESS`, and whose pointer size is `P`, and an index
`i < 2 ^ 32`, `CreateChildAtIndex(i)` creates an entry whose `UpdateValue`,
when the owner, a process and a target are there, reads exactly one pointer,
at `V + i * P` in unsigned 64-bit arithmetic; the address read by the entry
`i + 1` is that of the entry `i` plus `P`, in the same arithmetic. -/
theorem entry_reads_slot_address (owner : ValueObjectVTable) (i : Nat) (V : Nat)
    (synthetic_index : Int) (e : ChildEnv) (process : Process) (target : Target)
    (hV : owner.m_value.scalar = some V) (hVne : V ≠ LLDB_INVALID_ADDRESS)
    (hi : i < 2 ^ 32)
    (hparent : e.parent = some owner)
    (hprocess : e.process = some process) (htarget : e.target = some target) :
    (∃ c, owner.CreateChildAtIndex i false synthetic_index = some c ∧
        (c.UpdateValue e).reads = [add64 V (mul64 i owner.m_addr_size)]) ∧
      (i + 1 < 2 ^ 32 →
        ∃ c, owner.CreateChildAtIndex (i + 1) false synthetic_index = some c ∧
          (c.UpdateValue e).reads =
            [add64 (add64 V (mul64 i owner.m_addr_size)) owner.m_addr_size]) := by
  have hULL : owner.m_value.ULongLong LLDB_INVALID_ADDRESS = V := by
    simp [Value.ULongLong, hV]
  have hread : ∀ j, j < 2 ^ 32 →
      ((ValueObjectVTableChild.new j owner.m_addr_size).UpdateValue e).reads =
        [add64 V (mul64 j owner.m_addr_size)] := by
    intro j hj
    have h := ValueObjectVTableChild.UpdateValue_reads
      (ValueObjectVTableChild.new j owner.m_addr_size) e owner process target hparent
      (by rw [hULL]; exact hVne) hprocess htarget
    rw [h, hULL]
    have hidx : (ValueObjectVTableChild.new j owner.m_addr_size).m_func_idx = j :=
      Nat.mod_eq_of_lt hj
    have hsz : (ValueObjectVTableChild.new j owner.m_addr_size).m_addr_size =
        owner.m_addr_size % UINT64_MOD := rfl
    rw [hidx, hsz, mul64_mod_right]
  have hcreate : ∀ j, owner.CreateChildAtIndex j false synthetic_index =
      some (ValueObjectVTableChild.new j owner.m_addr_size) := fun _ => rfl
  refine ⟨⟨_, hcreate i, hread i hi⟩, ?_⟩
  intro hi1
  refine ⟨_, hcreate (i + 1), ?_⟩
  rw [hread (i + 1) hi1]
  congr 1
  unfold add64 mul64 UINT64_MOD
  rw [Nat.add_mul, Nat.one_mul]
  omega

/-- Entry 1 of the vtable of `Shape`: it reads one pointer, at
`0x403d90 + 1 * 8`, and entry 2 reads 8 bytes further. -/
theorem entry_reads_slot_address_Shape :
    (∃ c, TestVTable.shapeNode.CreateChildAtIndex 1 false 0 = some c ∧
        (c.UpdateValue (Scenario.entryEnv TestVTable.shapeNode)).reads =
          [add64 0x403d90 (mul64 1 8)]) ∧
      add64 0x403d90 (mul64 1 8) = 0x403d98 :=
  ⟨(entry_reads_slot_address TestVTable.shapeNode 1 0x403d90 0
      (Scenario.entryEnv TestVTable.shapeNode) TestVTable.process TestVTable.target
      rfl (by decide) (by decide) rfl rfl rfl).1,
    by decide⟩

end ValueObjectVTable

namespace ValueObjectVTableChild

/-- C9, as stated, fails: entry 1 of the vtable of `Shape` reads its slot with
success, the value `0x500000` resolves to no valid address, and `UpdateValue`
returns `false`, leaving the entry invalid with a cleared value. -/
theorem UpdateValue_fails_on_unresolved_pointer :
    TestVTable.process.ReadPointerFromMemory 0x403d98 = Except.ok 0x500000 ∧
      (TestVTable.target.ResolveLoadAddress 0x500000).isValid = false ∧
      ∃ c, TestVTable.shapeNode.CreateChildAtIndex 1 false 0 = some c ∧
        (c.UpdateValue (Scenario.entryEnv TestVTable.shapeNode)).reads = [0x403d98] ∧
        (c.UpdateValue (Scenario.entryEnv TestVTable.shapeNode)).ret = false ∧
        (c.UpdateValue (Scenario.entryEnv TestVTable.shapeNode)).node.m_value_is_valid = false ∧
        (c.UpdateValue (Scenario.entryEnv TestVTable.shapeNode)).node.m_value.scalar = none :=
  ⟨rfl, rfl, _, rfl, rfl, rfl, rfl, rfl⟩

/-- C9, amended: when the slot read of an entry succeeds with value `v`, the
outcome is decided by the resolution of `v`. If `v` resolves to no valid
address, `UpdateValue` returns `false`: the entry is invalid, its value is
cleared, and the error `"unable to resolve func ptr address: 0x..."` is stored.
If `v` resolves to a valid address, `UpdateValue` returns `true`: the entry is
valid and its scalar value is the raw pointer `v`, also when no function covers
`v`, in which case only the function type is absent. -/
theorem UpdateValue_after_slot_read (self : ValueObjectVTableChild) (e : ChildEnv)
    (owner : ValueObjectVTable) (process : Process) (target : Target) (v : Nat)
    (hparent : e.parent = some owner)
    (hV : owner.m_value.ULongLong LLDB_INVALID_ADDRESS ≠ LLDB_INVALID_ADDRESS)
    (hprocess : e.process = some process) (htarget : e.target = some target)
    (hread : process.ReadPointerFromMemory
      (add64 (owner.m_value.ULongLong LLDB_INVALID_ADDRESS)
        (mul64 self.m_func_idx self.m_addr_size)) = Except.ok v) :
    ((target.ResolveLoadAddress v).isValid = false →
        (self.UpdateValue e).ret = false ∧
        (self.UpdateValue e).node.m_value_is_valid = false ∧
        (self.UpdateValue e).node.m_value = Value.Clear ∧
        (self.UpdateValue e).node.m_error =
          some ("unable to resolve func ptr address: 0x" ++ hex16 v)) ∧
      ((target.ResolveLoadAddress v).isValid = true →
        (self.UpdateValue e).ret = true ∧
        (self.UpdateValue e).node.m_value_is_valid = true ∧
        (self.UpdateValue e).node.m_value =
          { valueType := Value.ValueType.Scalar, scalar := some v } ∧
        (self.UpdateValue e).node.m_error = none ∧
        ((target.ResolveLoadAddress v).function = none →
          (self.UpdateValue e).node.GetCompilerTypeImpl = none)) := by
  have hrun : self.UpdateValue e =
      if !(target.ResolveLoadAddress v).isValid then
        failWith
          { self with m_value_is_valid := false, m_value := Value.Clear, m_error := none }
          ("unable to resolve func ptr address: 0x" ++ hex16 v)
          [add64 (owner.m_value.ULongLong LLDB_INVALID_ADDRESS)
            (mul64 self.m_func_idx self.m_addr_size)]
      else
        { ret := true
          node :=
            { self with
              m_error := none
              m_sym_ctx := (target.ResolveLoadAddress v).CalculateSymbolContext
              m_value := { valueType := Value.ValueType.Scalar, scalar := some v }
              m_value_did_change := true
              m_value_is_valid := true }
          reads := [add64 (owner.m_value.ULongLong LLDB_INVALID_ADDRESS)
            (mul64 self.m_func_idx self.m_addr_size)] } := by
    unfold UpdateValue
    simp only [hparent, hprocess, htarget, hread]
    simp only [hV, if_false]
  constructor
  · intro hinv
    rw [hrun, hinv]
    exact ⟨rfl, rfl, rfl, rfl⟩
  · intro hval
    rw [hrun, hval]
    refine ⟨rfl, rfl, rfl, rfl, ?_⟩
    intro hfun
    simp [GetCompilerTypeImpl, Address.CalculateSymbolContext, hfun]

/-- Entry 0 of the vtable of `Shape`: the slot holds `0x401040`, which resolves
into `Shape::Area()`, and the entry is valid with that scalar value. -/
theorem UpdateValue_after_slot_read_Shape_Area :
    (TestVTable.target.ResolveLoadAddress 0x401040).isValid = true ∧
      ((new 0 8).UpdateValue (Scenario.entryEnv TestVTable.shapeNode)).ret = true ∧
      ((new 0 8).UpdateValue (Scenario.entryEnv TestVTable.shapeNode)).node.m_value =
        { valueType := Value.ValueType.Scalar, scalar := some 0x401040 } :=
  have h := (UpdateValue_after_slot_read (new 0 8) (Scenario.entryEnv TestVTable.shapeNode)
    TestVTable.shapeNode TestVTable.process TestVTable.target 0x401040
    rfl (by decide) rfl rfl rfl).2 rfl
  ⟨rfl, h.1, h.2.2.1⟩

end ValueObjectVTableChild

namespace ValueObjectVTable

/-- C10, as stated, fails: a newly created node has no entry, and
`CreateChildAtIndex(5, false, 0)` still produces an entry node, of slot
index 5. -/
theorem CreateChildAtIndex_beyond_entryCount :
    Create.m_num_vtable_entries = 0 ∧
      ∃ c, Create.CreateChildAtIndex 5 false 0 = some c ∧ c.m_func_idx = 5 :=
  ⟨rfl, _, rfl, rfl⟩

/-- C10, amended: `CreateChildAtIndex(idx, synthetic_array_member, _)` produces
an entry node exactly when `synthetic_array_member` is `false`, for every
`idx`, whatever the entry count. The entry has the slot index `idx` narrowed to
32 bits and the pointer size of the node; the constructor accepts every slot
index. -/
theorem CreateChildAtIndex_total (self : ValueObjectVTable) (idx : Nat)
    (synthetic_index : Int) :
    self.CreateChildAtIndex idx false synthetic_index =
        some (ValueObjectVTableChild.new idx self.m_addr_size) ∧
      (ValueObjectVTableChild.new idx self.m_addr_size).m_func_idx = idx % 2 ^ 32 ∧
      (ValueObjectVTableChild.new idx self.m_addr_size).m_addr_size =
        self.m_addr_size % 2 ^ 64 ∧
      self.CreateChildAtIndex idx true synthetic_index = none :=
  ⟨rfl, rfl, rfl, rfl⟩

end ValueObjectVTable

/-! ## The display string -/

theorem digitChar_lowerHex (k : Nat) (hk : k < 16) :
    isLowerHexDigit (Nat.digitChar k) = true ∧ hexDigitValue (Nat.digitChar k) = k := by
  interval_cases k <;> exact ⟨by decide, by decide⟩

theorem hexValue_append_single (pre : List Char) (d : Char) :
    hexValue (pre ++ [d]) = hexValue pre * 16 + hexDigitValue d := by
  unfold hexValue
  rw [List.foldl_append]
  rfl

theorem toDigitsCore_hex (fuel : Nat) : ∀ (n : Nat) (ds : List Char), n < fuel →
    ∃ pre, Nat.toDigitsCore 16 fuel n ds = pre ++ ds ∧
      (∀ c ∈ pre, isLowerHexDigit c = true) ∧ hexValue pre = n := by
  induction fuel with
  | zero => intro n ds h; omega
  | succ fuel ih =>
    intro n ds hn
    have hd := digitChar_lowerHex (n % 16) (Nat.mod_lt _ (by decide))
    simp only [Nat.toDigitsCore]
    by_cases h0 : n / 16 = 0
    · rw [if_pos h0]
      refine ⟨[Nat.digitChar (n % 16)], rfl, ?_, ?_⟩
      · intro c hc
        rw [List.mem_singleton] at hc
        rw [hc]; exact hd.1
      · have hlt : n < 16 := by
          by_contra hge
          have : 1 ≤ n / 16 := Nat.div_pos (by omega) (by decide)
          omega
        have : hexValue [Nat.digitChar (n % 16)] = hexDigitValue (Nat.digitChar (n % 16)) := by
          simp [hexValue]
        rw [this, hd.2, Nat.mod_eq_of_lt hlt]
    · rw [if_neg h0]
      have hlt : n / 16 < fuel := by
        have : n / 16 < n := Nat.div_lt_self (by
          rcases Nat.eq_zero_or_pos n with h | h
          · rw [h] at h0; simp at h0
          · exact h) (by decide)
        omega
      obtain ⟨pre, hpre, hall, hval⟩ := ih (n / 16) (Nat.digitChar (n % 16) :: ds) hlt
      refine ⟨pre ++ [Nat.digitChar (n % 16)], ?_, ?_, ?_⟩
      · rw [hpre]; simp
      · intro c hc
        rw [List.mem_append, List.mem_singleton] at hc
        rcases hc with hc | hc
        · exact hall c hc
        · rw [hc]; exact hd.1
      · rw [hexValue_append_single, hval, hd.2]
        exact Nat.div_add_mod' n 16

theorem hexValue_replicate_zero (k : Nat) (cs : List Char) :
    hexValue (List.replicate k '0' ++ cs) = hexValue cs := by
  unfold hexValue
  rw [List.foldl_append]
  have : List.foldl (fun acc c => acc * 16 + hexDigitValue c) 0 (List.replicate k '0') = 0 := by
    induction k with
    | zero => rfl
    | succ k ih =>
      rw [List.replicate_succ, List.foldl_cons]
      exact ih
  rw [this]

/-- The digits written by `hex16` for a 64-bit value: sixteen lowercase
hexadecimal digits whose value is the number. -/
theorem hex16_spec (v : Nat) (hv : v < 2 ^ 64) :
    (hex16 v).data.length = 16 ∧ (∀ c ∈ (hex16 v).data, isLowerHexDigit c = true) ∧
      hexValue (hex16 v).data = v := by
  obtain ⟨pre, hpre, hall, hval⟩ := toDigitsCore_hex (v + 1) v [] (Nat.lt_succ_self v)
  rw [List.append_nil] at hpre
  have hlen : (Nat.toDigits 16 v).length ≤ 16 :=
    Nat.toDigitsCore_length 16 (by decide) (v + 1) v 16 hv (by decide)
  have hdig : Nat.toDigits 16 v = pre := hpre
  unfold hex16
  simp only
  rw [hdig] at hlen ⊢
  refine ⟨?_, ?_, ?_⟩
  · rw [List.length_append, List.length_replicate]; omega
  · intro c hc
    rw [List.mem_append] at hc
    rcases hc with hc | hc
    · rw [(List.mem_replicate.mp hc).2]; decide
    · exact hall c hc
  · rw [hexValue_replicate_zero, hval]

namespace ValueObjectVTableChild

/-- C11: when the recompute of an entry succeeds with the 64-bit pointer value
`v`, `GetValueAsCString` returns `true` and the string `"0x"` followed by
exactly sixteen lowercase hexadecimal digits whose value is `v`, eighteen
characters in all, whatever the pointer size of the entry; when the recompute
fails it returns `false` and leaves the destination string as it was. -/
theorem GetValueAsCString_fixed_width (self : ValueObjectVTableChild) (e : ChildEnv)
    (destination : String) :
    (∀ v, (self.UpdateValue e).ret = true →
        (self.UpdateValue e).node.m_value.scalar = some v → v < 2 ^ 64 →
        (self.GetValueAsCString e destination).1 = true ∧
        (self.GetValueAsCString e destination).2.1.length = 18 ∧
        ∃ digits, (self.GetValueAsCString e destination).2.1 = "0x" ++ String.mk digits ∧
          digits.length = 16 ∧ (∀ c ∈ digits, isLowerHexDigit c = true) ∧
          hexValue digits = v) ∧
      ((self.UpdateValue e).ret = false →
        (self.GetValueAsCString e destination).1 = false ∧
        (self.GetValueAsCString e destination).2.1 = destination) := by
  constructor
  · intro v hret hv hv64
    obtain ⟨hlen, hall, hval⟩ := hex16_spec v hv64
    have hout : self.GetValueAsCString e destination =
        (true, "0x" ++ hex16 v, (self.UpdateValue e).node) := by
      simp [GetValueAsCString, UpdateValueIfNeeded, hret, Value.ULongLong, hv]
    rw [hout]
    refine ⟨rfl, ?_, (hex16 v).data, rfl, hlen, hall, hval⟩
    show ("0x" ++ hex16 v).length = 18
    rw [String.length_append]
    show 2 + (hex16 v).data.length = 18
    rw [hlen]
  · intro hret
    simp [GetValueAsCString, UpdateValueIfNeeded, hret]

/-- Entry 0 of the vtable of `Shape` holds `0x401040` and is displayed as
`0x0000000000401040`. -/
theorem GetValueAsCString_fixed_width_Shape_Area :
    ((new 0 8).GetValueAsCString (Scenario.entryEnv TestVTable.shapeNode) "").1 = true ∧
      ((new 0 8).GetValueAsCString (Scenario.entryEnv TestVTable.shapeNode) "").2.1.length = 18 ∧
      ((new 0 8).GetValueAsCString (Scenario.entryEnv TestVTable.shapeNode) "").2.1 =
        "0x0000000000401040" :=
  have h := (GetValueAsCString_fixed_width (new 0 8)
    (Scenario.entryEnv TestVTable.shapeNode) "").1 0x401040 rfl rfl (by decide)
  ⟨h.1, h.2.1, by decide⟩

end ValueObjectVTableChild

/-! ## Recomputing twice -/

namespace ValueObjectVTable

/-- C12: `UpdateValue` is idempotent. In a fixed environment, a second
recompute started from the node left by the first gives the same returned
`bool`, the same node state and the same read as the first; a first recompute
that does not return has no second. -/
theorem UpdateValue_idempotent (self : ValueObjectVTable) (e : Env) :
    (self.UpdateValue e >>= fun r => r.node.UpdateValue e) = self.UpdateValue e := by
  cases hrun : self.UpdateValue e with
  | error f => rfl
  | ok r =>
    show r.node.UpdateValue e = Except.ok r
    cases hret : r.ret with
    | true =>
      obtain ⟨parent, target, process, p, sym, h1, h2, h3, h4, h5, h6, h7, h8, h9, h10, h11,
        hreads, hnode⟩ := UpdateValue_true_inv self e r hrun hret
      have h := UpdateValue_at_symbol r.node e parent target process p sym h1 h2 h3 h4 h5 h6 h7 h8
      rw [h9, updateState_ok _ _ _ _ _ _ h10 h11] at h
      rw [h]
      cases r
      simp only at hret hreads hnode
      simp [hret, hreads, hnode, atSymbol, GetTypeName]
    | false =>
      unfold UpdateValue at hrun
      simp only [failWith] at hrun
      split at hrun
      · rename_i hparent
        cases hrun
        unfold UpdateValue
        simp [hparent, failWith]
      · rename_i parent hparent
        split at hrun
        · rename_i hupd
          cases hrun
          unfold UpdateValue
          simp [hparent, hupd, failWith]
        · rename_i hupd0
          have hupd : parent.UpdateValueIfNeeded = true := by simpa using hupd0
          split at hrun
          · rename_i htarget
            cases hrun
            unfold UpdateValue
            simp [hparent, hupd, htarget, failWith]
          · rename_i target htarget
            split at hrun
            · rename_i haddr
              cases hrun
              unfold UpdateValue
              simp [hparent, hupd, htarget, haddr, failWith]
            · rename_i haddr
              split at hrun
              · rename_i hprocess
                cases hrun
                unfold UpdateValue
                simp [hparent, hupd, htarget, haddr, hprocess, failWith]
              · rename_i process hprocess
                split at hrun
                · rename_i msg hread
                  cases hrun
                  unfold UpdateValue
                  simp [hparent, hupd, htarget, haddr, hprocess, hread, failWith]
                · rename_i p hread
                  split at hrun
                  · rename_i hvalid
                    cases hrun
                    unfold UpdateValue
                    simp [hparent, hupd, htarget, haddr, hprocess, hread, hvalid, failWith,
                      if_false]
                  · rename_i hvalid0
                    have hvalid : (target.ResolveLoadAddress p).isValid = true := by
                      simpa using hvalid0
                    split at hrun
                    · rename_i hsym
                      cases hrun
                      unfold UpdateValue
                      simp [hparent, hupd, htarget, haddr, hprocess, hread, hvalid, hsym,
                        failWith]
                    · rename_i sym hsym
                      split at hrun
                      · rename_i hpre
                        cases hrun
                        unfold UpdateValue
                        simp [hparent, hupd, htarget, haddr, hprocess, hread, hvalid, hsym,
                          hpre, failWith]
                      · unfold updateState at hrun
                        split at hrun
                        · cases hrun
                        · dsimp only at hrun
                          split at hrun
                          · cases hrun
                          · cases hrun
                            simp at hret

end ValueObjectVTable

/-! ## Scope -/

namespace ValueObjectVTable

/-- C13, as stated, fails: the variable `shape` is out of scope
(`IsInScope()` is `false`) and `UpdateValue` still returns `true`, with the
node valid and holding the vtable of `Shape`. -/
theorem UpdateValue_succeeds_out_of_scope :
    IsInScope (Scenario.envOutOfScope TestVTable.shapeAddr) = Except.ok false ∧
      Create.UpdateValue (Scenario.envOutOfScope TestVTable.shapeAddr) =
        Except.ok { ret := true, node := TestVTable.shapeNode, reads := [TestVTable.shapeAddr] } ∧
      TestVTable.shapeNode.m_value_is_valid = true :=
  ⟨rfl, rfl, rfl⟩

/-- C13, amended: `UpdateValue` does not consult the scope of the bound
object. When the bound object exists, the outcome of `UpdateValue` (returned
`bool`, node state, read) is the same whatever `IsInScope()` answers, so an
object out of scope fails exactly when the same object in scope fails; the
scope is reported by the method `IsInScope` of the node, which returns the
answer of the bound object. -/
theorem UpdateValue_ignores_scope (self : ValueObjectVTable) (e : Env) (parent : ParentObject)
    (inScope : Bool) (hparent : e.parent = some parent) :
    self.UpdateValue { e with parent := some { parent with IsInScope := inScope } } =
        self.UpdateValue e ∧
      IsInScope { e with parent := some { parent with IsInScope := inScope } } =
        Except.ok inScope ∧
      IsInScope e = Except.ok parent.IsInScope := by
  refine ⟨?_, rfl, ?_⟩
  · unfold UpdateValue
    simp only [hparent]
    rfl
  · unfold IsInScope
    rw [hparent]

/-- The variable `not_subclass` out of scope: `UpdateValue` fails as it does in
scope, with the error of the failed resolution and not an error about scope. -/
theorem UpdateValue_ignores_scope_NotSubclass :
    Create.UpdateValue (Scenario.envOutOfScope TestVTable.notSubclassAddr) =
        Create.UpdateValue (TestVTable.envAt TestVTable.notSubclassAddr) ∧
      IsInScope (Scenario.envOutOfScope TestVTable.notSubclassAddr) = Except.ok false :=
  have h := UpdateValue_ignores_scope Create (TestVTable.envAt TestVTable.notSubclassAddr)
    (TestVTable.objectAt TestVTable.notSubclassAddr) false rfl
  ⟨h.1, h.2.1⟩

end ValueObjectVTable

/-! ## Address classes -/

namespace ValueObjectVTable

/-- Without a load address `UpdateValue` fails before any read. -/
theorem UpdateValue_without_load_addr (self : ValueObjectVTable) (e : Env)
    (parent : ParentObject) (target : Target)
    (hparent : e.parent = some parent) (hupd : parent.UpdateValueIfNeeded = true)
    (htarget : e.target = some target)
    (haddr : parentLoadAddr parent = LLDB_INVALID_ADDRESS) :
    self.UpdateValue e =
      Except.ok
        { ret := false
          node := { self with
            m_error := some "parent is not in memory", m_value_is_valid := false }
          reads := [] } := by
  unfold UpdateValue
  simp [hparent, hupd, htarget, haddr, failWith]

/-- A returned `UpdateValue` reads nowhere but at the load address of the
parent, and reads there exactly once when there is a process and a load
address; on success the value of the node is the word read there. -/
theorem UpdateValue_reads_at_load_addr (self : ValueObjectVTable) (e : Env)
    (parent : ParentObject) (target : Target)
    (hparent : e.parent = some parent) (hupd : parent.UpdateValueIfNeeded = true)
    (htarget : e.target = some target)
    (r : UpdateResult ValueObjectVTable) (h : self.UpdateValue e = Except.ok r) :
    (∀ x ∈ r.reads, x = parentLoadAddr parent) ∧
      (parentLoadAddr parent ≠ LLDB_INVALID_ADDRESS →
        ∀ process, e.process = some process →
          r.reads = [parentLoadAddr parent] ∧
          (r.ret = true →
            ∃ p, process.ReadPointerFromMemory (parentLoadAddr parent) = Except.ok p ∧
              r.node.m_value.scalar = some p)) := by
  have hmain : (r.reads = [] ∧
        (parentLoadAddr parent = LLDB_INVALID_ADDRESS ∨ e.process = none)) ∨
      r.reads = [parentLoadAddr parent] := by
    unfold UpdateValue at h
    simp only [hparent, hupd, htarget, failWith] at h
    simp only [Bool.not_true, Bool.false_eq_true, if_false] at h
    split at h
    · rename_i haddr
      cases h; exact Or.inl ⟨rfl, Or.inl haddr⟩
    · split at h
      · rename_i hprocess
        cases h; exact Or.inl ⟨rfl, Or.inr hprocess⟩
      · refine Or.inr ?_
        split at h
        · cases h; rfl
        · split at h
          · cases h; rfl
          · split at h
            · cases h; rfl
            · split at h
              · cases h; rfl
              · unfold updateState at h
                split at h
                · cases h
                · dsimp only at h
                  split at h
                  · cases h
                  · cases h; rfl
  constructor
  · intro x hx
    rcases hmain with ⟨h0, -⟩ | h1
    · rw [h0] at hx; cases hx
    · rw [h1] at hx
      exact List.mem_singleton.mp hx
  · intro haddr process hprocess
    have hreads : r.reads = [parentLoadAddr parent] := by
      rcases hmain with ⟨-, h0 | h0⟩ | h1
      · exact absurd h0 haddr
      · rw [hprocess] at h0; cases h0
      · exact h1
    refine ⟨hreads, ?_⟩
    intro hret
    obtain ⟨parent', target', process', p, sym, h1, -, -, -, h5, h6, -, -, -, -, -, -, hnode⟩ :=
      UpdateValue_true_inv self e r h hret
    rw [hparent] at h1; cases h1
    rw [hprocess] at h5; cases h5
    exact ⟨p, h6, by rw [hnode]⟩

/-- C14: address-class handling of `UpdateValue`, once the parent is there and
up to date and there is a target. For a load address, every read of a returned
call is at the address of the object, and with a process and an address other
than `LLDB_INVALID_ADDRESS` there is exactly one read, at that address, whose
word is the value of the node on success. For a file address with an owning
module the same holds at the load address the module resolves the file address
to. For a host or invalid address, a file address without module, or a file
address whose resolution has no load address, the call returns `false` with the
error `"parent is not in memory"`, the node invalid, and reads nothing. -/
theorem UpdateValue_address_class (self : ValueObjectVTable) (e : Env)
    (parent : ParentObject) (target : Target)
    (hparent : e.parent = some parent) (hupd : parent.UpdateValueIfNeeded = true)
    (htarget : e.target = some target) :
    (parent.GetAddressOf.2 = AddressType.eAddressTypeLoad →
        ∀ r, self.UpdateValue e = Except.ok r →
          (∀ x ∈ r.reads, x = parent.GetAddressOf.1) ∧
          (parent.GetAddressOf.1 ≠ LLDB_INVALID_ADDRESS →
            ∀ process, e.process = some process →
              r.reads = [parent.GetAddressOf.1] ∧
              (r.ret = true →
                ∃ p, process.ReadPointerFromMemory parent.GetAddressOf.1 = Except.ok p ∧
                  r.node.m_value.scalar = some p))) ∧
      (∀ m, parent.GetAddressOf.2 = AddressType.eAddressTypeFile →
        parent.GetModule = some m →
        ∀ r, self.UpdateValue e = Except.ok r →
          (∀ x ∈ r.reads, x = (m.ResolveFileAddress parent.GetAddressOf.1).loadAddress) ∧
          ((m.ResolveFileAddress parent.GetAddressOf.1).loadAddress ≠ LLDB_INVALID_ADDRESS →
            ∀ process, e.process = some process →
              r.reads = [(m.ResolveFileAddress parent.GetAddressOf.1).loadAddress] ∧
              (r.ret = true →
                ∃ p, process.ReadPointerFromMemory
                    (m.ResolveFileAddress parent.GetAddressOf.1).loadAddress = Except.ok p ∧
                  r.node.m_value.scalar = some p))) ∧
      (parent.GetAddressOf.2 = AddressType.eAddressTypeHost ∨
          parent.GetAddressOf.2 = AddressType.eAddressTypeInvalid ∨
          (parent.GetAddressOf.2 = AddressType.eAddressTypeFile ∧ parent.GetModule = none) ∨
          (parent.GetAddressOf.2 = AddressType.eAddressTypeFile ∧
            ∃ m, parent.GetModule = some m ∧
              (m.ResolveFileAddress parent.GetAddressOf.1).loadAddress = LLDB_INVALID_ADDRESS) →
        ∃ r, self.UpdateValue e = Except.ok r ∧ r.ret = false ∧
          r.node.m_error = some "parent is not in memory" ∧
          r.node.m_value_is_valid = false ∧ r.reads = []) := by
  refine ⟨?_, ?_, ?_⟩
  · intro hty r hr
    have ha : parentLoadAddr parent = parent.GetAddressOf.1 := by
      simp [parentLoadAddr, hty]
    have h := UpdateValue_reads_at_load_addr self e parent target hparent hupd htarget r hr
    rw [ha] at h
    exact h
  · intro m hty hm r hr
    have ha : parentLoadAddr parent = (m.ResolveFileAddress parent.GetAddressOf.1).loadAddress := by
      simp [parentLoadAddr, hty, hm]
    have h := UpdateValue_reads_at_load_addr self e parent target hparent hupd htarget r hr
    rw [ha] at h
    exact h
  · intro hbad
    have ha : parentLoadAddr parent = LLDB_INVALID_ADDRESS := by
      rcases hbad with h | h | ⟨h, hm⟩ | ⟨h, m, hm, hl⟩
      · simp [parentLoadAddr, h]
      · simp [parentLoadAddr, h]
      · simp [parentLoadAddr, h, hm]
      · simp [parentLoadAddr, h, hm, hl]
    exact ⟨_, UpdateValue_without_load_addr self e parent target hparent hupd htarget ha,
      rfl, rfl, rfl, rfl⟩

/-- The variable `shape` given by the file address `0x2000`: the module
resolves it to the load address of `shape`, the pointer is read there, and the
node is that of the vtable of `Shape`. -/
theorem UpdateValue_address_class_file :
    (Scenario.module.ResolveFileAddress 0x2000).loadAddress = TestVTable.shapeAddr ∧
      Create.UpdateValue
          (Scenario.envOfClass 0x2000 AddressType.eAddressTypeFile (some Scenario.module)) =
        Except.ok { ret := true, node := TestVTable.shapeNode, reads := [TestVTable.shapeAddr] } ∧
      ({ ret := true, node := TestVTable.shapeNode, reads := [TestVTable.shapeAddr] } :
          UpdateResult ValueObjectVTable).reads =
        [(Scenario.module.ResolveFileAddress 0x2000).loadAddress] :=
  ⟨rfl, rfl,
    ((UpdateValue_address_class Create
      (Scenario.envOfClass 0x2000 AddressType.eAddressTypeFile (some Scenario.module))
      _ TestVTable.target rfl rfl rfl).2.1 Scenario.module rfl rfl _ rfl).2 (by decide)
      TestVTable.process rfl |>.1⟩

end ValueObjectVTable

/-! ## The byte size of the symbol and the slots of the entries -/

namespace ValueObjectVTable

/-- C15, evaluated on a symbol named `"vtable for Opaque"` whose byte size is
not valid, read 16 bytes past its start by a process with 8-byte addresses:
nothing on the way to line 293 looks at the validity of the size. With
assertions compiled in the assertion fails; with assertions compiled out the
call returns `true` with an entry count computed from the size that is not
valid, `(0x403e00 + 0 - 0x403e10) / 8` in unsigned 64-bit arithmetic. -/
theorem UpdateValue_unvalidated_byte_size :
    startswith Scenario.unsizedVTable.name "vtable for " = true ∧
      Scenario.unsizedVTable.byteSizeIsValid = false ∧
      Create.UpdateValue (Scenario.env (some Scenario.unsizedVTable) 0x403e10 8 true) =
        Except.error Fault.assertionFailed ∧
      ∃ r, Create.UpdateValue (Scenario.env (some Scenario.unsizedVTable) 0x403e10 8 false) =
          Except.ok r ∧
        r.ret = true ∧ r.node.m_addr_size = 8 ∧
        r.node.m_num_vtable_entries = 0x1ffffffffffffffe :=
  ⟨by decide, rfl, rfl, _, rfl, rfl, rfl, by decide⟩

/-- C16: after a successful `UpdateValue` with read pointer `p`, pointer size
`P` and a symbol whose end `loadAddress + byteSize` is at least `p` and below
`2 ^ 64`, every enumerated entry lies inside the symbol: for every 32-bit `max`
and every `i < CalculateNumChildren(max)`, the entry `i` reads its slot at
`p + i * P` and `p + (i + 1) * P` is at most the end of the symbol. The entry
count is the largest such count: `p + (entryCount + 1) * P` is past the end. -/
theorem entry_slots_inside_symbol
    (self : ValueObjectVTable) (e : Env) (r : UpdateResult ValueObjectVTable)
    (parent : ParentObject) (target : Target) (process : Process) (p : Nat) (sym : Symbol)
    (hparent : e.parent = some parent) (htarget : e.target = some target)
    (hprocess : e.process = some process)
    (hread : process.ReadPointerFromMemory (parentLoadAddr parent) = Except.ok p)
    (hsym : (target.ResolveLoadAddress p).symbol = some sym)
    (h : self.UpdateValue e = Except.ok r) (hret : r.ret = true)
    (hend : p ≤ sym.loadAddress + sym.byteSize)
    (hwrap : sym.loadAddress + sym.byteSize < 2 ^ 64) :
    0 < process.GetAddressByteSize ∧
      (∀ max i, max < 2 ^ 32 → i < r.node.CalculateNumChildren max →
        p + (i + 1) * process.GetAddressByteSize ≤ sym.loadAddress + sym.byteSize ∧
        ∀ (ce : ChildEnv) (cprocess : Process) (ctarget : Target),
          ce.parent = some r.node → ce.process = some cprocess → ce.target = some ctarget →
          ∃ c, r.node.CreateChildAtIndex i false 0 = some c ∧
            (c.UpdateValue ce).reads = [p + i * process.GetAddressByteSize]) ∧
      sym.loadAddress + sym.byteSize <
        p + (r.node.m_num_vtable_entries + 1) * process.GetAddressByteSize := by
  obtain ⟨parent', target', process', p', sym', h1, -, h3, -, h5, h6, -, h8, -, -, hP, -, hnode⟩ :=
    UpdateValue_true_inv self e r h hret
  rw [hparent] at h1; cases h1
  rw [htarget] at h3; cases h3
  rw [hprocess] at h5; cases h5
  rw [hread] at h6; cases h6
  rw [hsym] at h8; cases h8
  have hPpos : 0 < process.GetAddressByteSize := Nat.pos_of_ne_zero hP
  have hcount : r.node.m_num_vtable_entries =
      (sym.loadAddress + sym.byteSize - p) / process.GetAddressByteSize := by
    rw [hnode]
    show sub64 (add64 sym.loadAddress sym.byteSize) p / process.GetAddressByteSize = _
    rw [add64_eq_of_lt _ _ hwrap, sub64_eq_of_le _ _ hwrap hend]
  have hsize : r.node.m_addr_size = process.GetAddressByteSize := by rw [hnode]
  have hval : r.node.m_value.ULongLong LLDB_INVALID_ADDRESS = p := by rw [hnode]; rfl
  have hfloor : r.node.m_num_vtable_entries * process.GetAddressByteSize ≤
      sym.loadAddress + sym.byteSize - p := by
    rw [hcount]
    exact Nat.div_mul_le_self _ _
  refine ⟨hPpos, ?_, ?_⟩
  · intro max i hmax hi
    have himax : i < max := lt_of_lt_of_le hi (by
      rw [CalculateNumChildren_eq_min_aux]; exact Nat.min_le_right _ _)
    have hin : i + 1 ≤ r.node.m_num_vtable_entries := lt_of_lt_of_le hi (by
      rw [CalculateNumChildren_eq_min_aux]; exact Nat.min_le_left _ _)
    have hmul : (i + 1) * process.GetAddressByteSize ≤
        r.node.m_num_vtable_entries * process.GetAddressByteSize :=
      Nat.mul_le_mul_right _ hin
    have hslot : p + (i + 1) * process.GetAddressByteSize ≤ sym.loadAddress + sym.byteSize := by
      omega
    refine ⟨hslot, ?_⟩
    intro ce cprocess ctarget hcp hcpr hct
    have hexp : (i + 1) * process.GetAddressByteSize =
        i * process.GetAddressByteSize + process.GetAddressByteSize := by
      rw [Nat.add_mul, Nat.one_mul]
    have hpne : r.node.m_value.ULongLong LLDB_INVALID_ADDRESS ≠ LLDB_INVALID_ADDRESS := by
      rw [hval]
      unfold LLDB_INVALID_ADDRESS
      omega
    have hreads := ValueObjectVTableChild.UpdateValue_reads
      (ValueObjectVTableChild.new i r.node.m_addr_size) ce r.node cprocess ctarget hcp hpne hcpr hct
    refine ⟨_, rfl, ?_⟩
    rw [hreads, hval]
    have hi32 : i < 2 ^ 32 := by omega
    have hidx : (ValueObjectVTableChild.new i r.node.m_addr_size).m_func_idx = i :=
      Nat.mod_eq_of_lt hi32
    have hsz : (ValueObjectVTableChild.new i r.node.m_addr_size).m_addr_size =
        r.node.m_addr_size % UINT64_MOD := rfl
    rw [hidx, hsz, mul64_mod_right, hsize]
    have hm : mul64 i process.GetAddressByteSize = i * process.GetAddressByteSize := by
      unfold mul64 UINT64_MOD
      exact Nat.mod_eq_of_lt (by omega)
    rw [hm, add64_eq_of_lt _ _ (by omega)]
  · rw [hcount]
    have hlt := Nat.lt_div_mul_add (a := sym.loadAddress + sym.byteSize - p) hPpos
    rw [Nat.add_mul, Nat.one_mul]
    omega

/-- The vtable of `Shape` with `max = 10`: entry 3, the last one, reads at
`0x403d90 + 3 * 8` and ends at `0x403db0`, the end of the 48-byte symbol. -/
theorem entry_slots_inside_symbol_Shape :
    TestVTable.shapeNode.CalculateNumChildren 10 = 4 ∧
      0x403d90 + (3 + 1) * 8 ≤ 0x403d80 + 48 ∧
      (∃ c, TestVTable.shapeNode.CreateChildAtIndex 3 false 0 = some c ∧
        (c.UpdateValue (Scenario.entryEnv TestVTable.shapeNode)).reads = [0x403d90 + 3 * 8]) ∧
      0x403d80 + 48 < 0x403d90 + (4 + 1) * 8 :=
  have h := entry_slots_inside_symbol Create (TestVTable.envAt TestVTable.shapeAddr)
    { ret := true, node := TestVTable.shapeNode, reads := [TestVTable.shapeAddr] }
    (TestVTable.objectAt TestVTable.shapeAddr) TestVTable.target TestVTable.process
    0x403d90 TestVTable.shapeVTable rfl rfl rfl rfl rfl rfl rfl (by decide) (by decide)
  ⟨by decide, (h.2.1 10 3 (by decide) (by decide)).1,
    (h.2.1 10 3 (by decide) (by decide)).2 (Scenario.entryEnv TestVTable.shapeNode)
      TestVTable.process TestVTable.target rfl rfl rfl,
    h.2.2⟩

end ValueObjectVTable

end lldb_private
